import Mathlib

set_option maxHeartbeats 1000000

/-!
Shallow embedding of a two-variant SDL2 "Scratch clone" block editor.

Variant `V1` embeds `src/main.cpp`; variant `V2` embeds
`src/unnamed/part_000`.  Rendering, font and texture loading are external
collaborators and are not modelled; every definition below mirrors the
state-manipulating code of the sources.  Sprite coordinates are C++
`float`s that only ever hold integer values in the modelled operations
(integer literals, integer additions, integer clamps), so they are
embedded as `Int`.  C++ `int` fields are embedded as `Int`; the `Uint32`
tick arithmetic of `SDL_GetTicks` is embedded with explicit `% 2^32`.
-/

structure SDL_Rect where
  x : Int
  y : Int
  w : Int
  h : Int
deriving DecidableEq

structure SDL_Color where
  r : Nat
  g : Nat
  b : Nat
  a : Nat
deriving DecidableEq

/-- SDL_PointInRect: half-open containment test, as in SDL_rect.h. -/
def SDL_PointInRect (px py : Int) (r : SDL_Rect) : Prop :=
  r.x ≤ px ∧ px < r.x + r.w ∧ r.y ≤ py ∧ py < r.y + r.h

instance (px py : Int) (r : SDL_Rect) : Decidable (SDL_PointInRect px py r) := by
  unfold SDL_PointInRect
  infer_instance

/-- Keys the two programs inspect (`ev.key.keysym.sym`). -/
inductive SDLKey
  | SDLK_RETURN
  | SDLK_KP_ENTER
  | SDLK_ESCAPE
  | SDLK_BACKSPACE
  | SDLK_SPACE
  | SDLK_OTHER
deriving DecidableEq

/-- Accumulate the decimal value of a digit list, as `strtol` does. -/
def digitsVal : List Char → Nat → Nat
  | [], acc => acc
  | c :: rest, acc => digitsVal rest (acc * 10 + (c.toNat - 48))

/-- `std::stoi`: skip leading whitespace, optional sign, greedy digit run.
`none` models a thrown exception: `invalid_argument` when no digits were
consumed, `out_of_range` when the value does not fit a 32-bit `int`. -/
def stoi (s : String) : Option Int :=
  let cs := s.data.dropWhile (fun c => c = ' ' ∨ c = '\t' ∨ c = '\n' ∨ c = '\r')
  let neg : Bool := cs.head? = some '-'
  let ds := (if cs.head? = some '-' ∨ cs.head? = some '+' then cs.tail else cs).takeWhile
    Char.isDigit
  if ds = [] then none
  else
    let mag : Int := (digitsVal ds 0 : Nat)
    let v : Int := if neg then -mag else mag
    if v < -2147483648 ∨ 2147483647 < v then none else some v

namespace V1

/-! Embedding of `src/main.cpp`. -/

def PALETTE_W : Int := 200
def WORKSPACE_X : Int := PALETTE_W
def WORKSPACE_W : Int := 500
def STAGE_X : Int := PALETTE_W + WORKSPACE_W
def BLOCK_WIDTH : Int := 170
def BLOCK_HEIGHT : Int := 38
def BLOCK_GAP : Int := 10

inductive BlockType
  | EVENT_FLAG
  | MOVE_X
  | MOVE_Y
  | LOOKS_SHOW
  | LOOKS_HIDE
deriving DecidableEq

inductive BlockCategory
  | MOTION
  | EVENT
  | LOOKS
deriving DecidableEq

structure Block where
  rect : SDL_Rect
  cat : BlockCategory
  type : BlockType
  color : SDL_Color
  steps : Int
deriving DecidableEq

/-- Placeholder used for (unreachable) out-of-range vector indexing. -/
def defaultBlock : Block :=
  { rect := { x := 0, y := 0, w := 0, h := 0 }, cat := .MOTION, type := .EVENT_FLAG,
    color := { r := 0, g := 0, b := 0, a := 0 }, steps := 0 }

structure State where
  spriteX : Int
  spriteY : Int
  spriteVisible : Bool
  palette : List Block
  workspace : List Block
  draggingIdx : Int
  dragOffX : Int
  dragOffY : Int
  running : Bool
  scriptStep : Int
  lastStepTime : Int
  highlightIdx : Int
  editingIdx : Int
  editBuffer : String
deriving DecidableEq

def colEvent : SDL_Color := { r := 255, g := 165, b := 0, a := 255 }
def colMotion : SDL_Color := { r := 70, g := 130, b := 180, a := 255 }
def colLooks : SDL_Color := { r := 180, g := 80, b := 200, a := 255 }

/-- The `add` lambda inside `BuildPalette`: append one template, advance `y`. -/
def paletteAdd (acc : List Block × Int) (cat : BlockCategory) (ty : BlockType)
    (col : SDL_Color) (steps : Int) : List Block × Int :=
  (acc.1 ++ [{ rect := { x := 15, y := acc.2, w := BLOCK_WIDTH, h := BLOCK_HEIGHT },
               cat := cat, type := ty, color := col, steps := steps }],
   acc.2 + BLOCK_HEIGHT + BLOCK_GAP)

/-- `BuildPalette` of main.cpp: pushes five templates onto the existing
catalog.  Note: the source never clears `palette` first. -/
def BuildPalette (palette : List Block) : List Block :=
  let a0 : List Block × Int := (palette, 10)
  let a1 := paletteAdd a0 .EVENT .EVENT_FLAG colEvent 0
  let a1 := (a1.1, a1.2 + 8)
  let a2 := paletteAdd a1 .MOTION .MOVE_X colMotion 10
  let a3 := paletteAdd a2 .MOTION .MOVE_Y colMotion 10
  let a3 := (a3.1, a3.2 + 8)
  let a4 := paletteAdd a3 .LOOKS .LOOKS_SHOW colLooks 0
  let a5 := paletteAdd a4 .LOOKS .LOOKS_HIDE colLooks 0
  a5.1

/-- The scan loop of `StartScript`: index of the first `EVENT_FLAG` block. -/
def findFlag : List Block → Option Nat
  | [] => none
  | b :: rest =>
    if b.type = BlockType.EVENT_FLAG then some 0 else (findFlag rest).map (· + 1)

/-- `StartScript` of main.cpp: starts right after the first flag block;
a no-op when the workspace holds no flag block. -/
def StartScript (now : Int) (s : State) : State :=
  match findFlag s.workspace with
  | some i =>
    { s with running := true, scriptStep := (i : Int) + 1, lastStepTime := now,
             highlightIdx := (i : Int) }
  | none => s

/-- The `switch (cur.type)` of `UpdateScript`. -/
def applyEffect (b : Block) (s : State) : State :=
  match b.type with
  | .MOVE_X => { s with spriteX := s.spriteX + b.steps }
  | .MOVE_Y => { s with spriteY := s.spriteY + b.steps }
  | .LOOKS_SHOW => { s with spriteVisible := true }
  | .LOOKS_HIDE => { s with spriteVisible := false }
  | .EVENT_FLAG => s

/-- `UpdateScript` of main.cpp; `now` is the steady-clock millisecond count. -/
def UpdateScript (now : Int) (s : State) : State :=
  if s.running = false then s
  else if (s.workspace.length : Int) ≤ s.scriptStep then
    { s with running := false, highlightIdx := -1 }
  else if now - s.lastStepTime < 400 then s
  else
    let cur := (s.workspace.get? s.scriptStep.toNat).getD defaultBlock
    let s1 := { s with lastStepTime := now, highlightIdx := s.scriptStep }
    let s2 := applyEffect cur s1
    { s2 with scriptStep := s.scriptStep + 1 }

/-- In-place `workspace[i].steps = v`; out of range is a no-op (the C++
indexing would be undefined there, and the code never reaches it). -/
def modifySteps : List Block → Nat → Int → List Block
  | [], _, _ => []
  | b :: rest, 0, v => { b with steps := v } :: rest
  | b :: rest, n+1, v => b :: modifySteps rest n v

/-- In-place update of `workspace[i].rect.x/y` during a drag. -/
def moveBlockTo : List Block → Nat → Int → Int → List Block
  | [], _, _, _ => []
  | b :: rest, 0, nx, ny => { b with rect := { b.rect with x := nx, y := ny } } :: rest
  | b :: rest, n+1, nx, ny => b :: moveBlockTo rest n nx ny

/-- The value badge rectangle of a motion block (drawing and hit test). -/
def badgeRect (b : Block) : SDL_Rect :=
  { x := b.rect.x + b.rect.w - 58, y := b.rect.y + (b.rect.h - 20) / 2, w := 52, h := 20 }

/-- The badge-click scan of the mouse-down handler. -/
def findBadge (mx my : Int) : List Block → Nat → Option (Nat × Block)
  | [], _ => none
  | b :: rest, i =>
    if (b.type = BlockType.MOVE_X ∨ b.type = BlockType.MOVE_Y) ∧
        SDL_PointInRect mx my (badgeRect b)
    then some (i, b) else findBadge mx my rest (i + 1)

/-- Forward scan for the first block containing the point (palette pick-up). -/
def findHit (mx my : Int) : List Block → Nat → Option (Nat × Block)
  | [], _ => none
  | b :: rest, i =>
    if SDL_PointInRect mx my b.rect then some (i, b) else findHit mx my rest (i + 1)

/-- Backward scan (`i = size-1 .. 0`): highest index containing the point. -/
def findHitTop (mx my : Int) : List Block → Option Nat
  | [] => none
  | b :: rest =>
    match findHitTop mx my rest with
    | some j => some (j + 1)
    | none => if SDL_PointInRect mx my b.rect then some 0 else none

def flagBtn : SDL_Rect := { x := STAGE_X + 10, y := 10, w := 60, h := 30 }

/-- `SDL_TEXTINPUT` while editing: accept digits, or a leading minus into an
empty buffer, and only while the buffer is shorter than 5 characters. -/
def onTextInput (ch : Char) (s : State) : State :=
  if 0 ≤ s.editingIdx then
    if (ch.isDigit ∨ (ch = '-' ∧ s.editBuffer = "")) ∧ s.editBuffer.length < 5 then
      { s with editBuffer := s.editBuffer.push ch }
    else s
  else s

/-- The Enter-commit of main.cpp: the buffer is parsed only when it is
neither empty nor a lone minus, and a `std::stoi` failure (the catch
branch) stores nothing, so in all three cases the workspace is unchanged. -/
def commitBuf (buf : String) (ws : List Block) (idx : Nat) : List Block :=
  if buf ≠ "" ∧ buf ≠ "-" then
    match stoi buf with
    | some v => modifySteps ws idx v
    | none => ws
  else ws

/-- `SDL_KEYDOWN` handler.  On Enter the buffer is committed via
`commitBuf` and the edit session always ends. -/
def onKeyDown (now : Int) (key : SDLKey) (s : State) : State :=
  if 0 ≤ s.editingIdx then
    if key = SDLKey.SDLK_RETURN ∨ key = SDLKey.SDLK_KP_ENTER then
      { s with workspace := commitBuf s.editBuffer s.workspace s.editingIdx.toNat,
               editingIdx := -1, editBuffer := "" }
    else if key = SDLKey.SDLK_ESCAPE then { s with editingIdx := -1, editBuffer := "" }
    else if key = SDLKey.SDLK_BACKSPACE then
      if s.editBuffer ≠ "" then { s with editBuffer := s.editBuffer.dropRight 1 } else s
    else s
  else
    if key = SDLKey.SDLK_SPACE then StartScript now s else s

/-- Left `SDL_MOUSEBUTTONDOWN` handler.  An active edit is cancelled (not
committed), then: flag button, badge scan, palette pick-up (which pushes a
copy onto the workspace at once), workspace pick-up. -/
def onMouseDown (now mx my : Int) (s : State) : State :=
  let s := if 0 ≤ s.editingIdx then { s with editingIdx := -1, editBuffer := "" } else s
  if SDL_PointInRect mx my flagBtn then StartScript now s
  else
    match findBadge mx my s.workspace 0 with
    | some (i, b) => { s with editingIdx := (i : Int), editBuffer := toString b.steps }
    | none =>
      match findHit mx my s.palette 0 with
      | some (_, b) =>
        let nb := { b with rect := { b.rect with x := mx - BLOCK_WIDTH / 2,
                                                 y := my - BLOCK_HEIGHT / 2 } }
        { s with workspace := s.workspace ++ [nb],
                 draggingIdx := (s.workspace.length : Int),
                 dragOffX := mx - nb.rect.x, dragOffY := my - nb.rect.y }
      | none =>
        if s.draggingIdx = -1 then
          match findHitTop mx my s.workspace with
          | some i =>
            let b := (s.workspace.get? i).getD defaultBlock
            { s with draggingIdx := (i : Int), dragOffX := mx - b.rect.x,
                     dragOffY := my - b.rect.y }
          | none => s
        else s

def onMouseMotion (mx my : Int) (s : State) : State :=
  if 0 ≤ s.draggingIdx then
    { s with workspace := moveBlockTo s.workspace s.draggingIdx.toNat
                            (mx - s.dragOffX) (my - s.dragOffY) }
  else s

/-- Left `SDL_MOUSEBUTTONUP`: the dragged block is erased only when released
over the palette strip (`mp.x < PALETTE_W`); the editing index shifts down
whenever it is at or above the drag index (the source applies this shift
even when no erase happened). -/
def onMouseUp (mx my : Int) (s : State) : State :=
  if 0 ≤ s.draggingIdx then
    let ws := if mx < PALETTE_W then s.workspace.eraseIdx s.draggingIdx.toNat
              else s.workspace
    let ei := if s.draggingIdx ≤ s.editingIdx ∧ 0 < s.editingIdx then s.editingIdx - 1
              else s.editingIdx
    { s with workspace := ws, editingIdx := ei, draggingIdx := -1 }
  else s

/-- `SDL_MOUSEWHEEL` while no edit is active: every motion block whose
rectangle contains the pointer gains 5 (wheel up) or loses 5 (otherwise).
The source reads the pointer from `SDL_GetMouseState`; it is passed here
as the event coordinates. -/
def onWheel (wy mx my : Int) (s : State) : State :=
  if s.editingIdx = -1 then
    { s with workspace := s.workspace.map (fun b =>
        if (b.type = BlockType.MOVE_X ∨ b.type = BlockType.MOVE_Y) ∧
            SDL_PointInRect mx my b.rect
        then { b with steps := b.steps + (if 0 < wy then 5 else -5) } else b) }
  else s

inductive Event
  | textInput (ch : Char)
  | keyDown (key : SDLKey)
  | mouseDown (mx my : Int)
  | mouseMotion (mx my : Int)
  | mouseUp (mx my : Int)
  | wheel (wy mx my : Int)

/-- One iteration of the event dispatch chain; `now` is the clock value a
`StartScript` call inside the handler would observe. -/
def handleEvent (now : Int) (e : Event) (s : State) : State :=
  match e with
  | .textInput ch => onTextInput ch s
  | .keyDown key => onKeyDown now key s
  | .mouseDown mx my => onMouseDown now mx my s
  | .mouseMotion mx my => onMouseMotion mx my s
  | .mouseUp mx my => onMouseUp mx my s
  | .wheel wy mx my => onWheel wy mx my s

/-- An interleaving atom: one input event or one `UpdateScript` call. -/
inductive Action
  | ev (now : Int) (e : Event)
  | tick (now : Int)

def stepA (a : Action) (s : State) : State :=
  match a with
  | .ev now e => handleEvent now e s
  | .tick now => UpdateScript now s

def runActs (acts : List Action) (s : State) : State :=
  match acts with
  | [] => s
  | a :: rest => runActs rest (stepA a s)

/-- Program state right after start-up (`BuildPalette` done, empty script). -/
def initState : State :=
  { spriteX := 200, spriteY := 200, spriteVisible := true,
    palette := BuildPalette [], workspace := [],
    draggingIdx := -1, dragOffX := 0, dragOffY := 0,
    running := false, scriptStep := 0, lastStepTime := 0, highlightIdx := -1,
    editingIdx := -1, editBuffer := "" }

/-- A tick call in which the delay gate passes and a block effect is applied. -/
def gatedTick (now : Int) (s : State) : Prop :=
  s.running = true ∧ s.scriptStep < (s.workspace.length : Int) ∧ 400 ≤ now - s.lastStepTime

instance (now : Int) (s : State) : Decidable (gatedTick now s) := by
  unfold gatedTick
  infer_instance

def runTicks (ts : List Int) (s : State) : State :=
  match ts with
  | [] => s
  | t :: rest => runTicks rest (UpdateScript t s)

def gatedCount (ts : List Int) (s : State) : Nat :=
  match ts with
  | [] => 0
  | t :: rest => (if gatedTick t s then 1 else 0) + gatedCount rest (UpdateScript t s)

/-- Tick times 400 apart, the fastest schedule on which every gate passes. -/
def sched (last : Int) : Nat → List Int
  | 0 => []
  | n+1 => (last + 400) :: sched (last + 400) n

end V1

namespace V2

/-! Embedding of `src/unnamed/part_000`. -/

def WINDOW_W : Int := 1150
def WINDOW_H : Int := 720
def CAT_W : Int := 260
def STAGE_W : Int := 400
def STAGE_H : Int := 400
def SCRIPTS_X : Int := CAT_W
def SCRIPTS_W : Int := WINDOW_W - CAT_W - STAGE_W
def STAGE_X : Int := CAT_W + SCRIPTS_W
def STAGE_Y : Int := 20
def BLOCK_W : Int := 190
def BLOCK_H : Int := 40
def BLOCK_GAP : Int := 8
def STEP_DELAY : Int := 400

def COL_MOTION : SDL_Color := { r := 74, g := 144, b := 226, a := 255 }
def COL_LOOKS : SDL_Color := { r := 153, g := 102, b := 255, a := 255 }
def COL_EVENTS : SDL_Color := { r := 255, g := 171, b := 25, a := 255 }

inductive BlockType
  | EVENT_FLAG
  | CHANGE_X
  | CHANGE_Y
  | SET_X
  | SET_Y
  | LOOKS_SHOW
  | LOOKS_HIDE
deriving DecidableEq

inductive BlockCategory
  | BCAT_EVENT
  | BCAT_MOTION
  | BCAT_LOOKS
deriving DecidableEq

structure Block where
  rect : SDL_Rect
  category : BlockCategory
  type : BlockType
  color : SDL_Color
  steps : Int
  isHat : Bool
deriving DecidableEq

structure PaletteHeader where
  name : String
  yPos : Int
deriving DecidableEq

/-- `Block dragBlock = {};` — the zero-initialized C++ aggregate. -/
def zeroBlock : Block :=
  { rect := { x := 0, y := 0, w := 0, h := 0 }, category := .BCAT_EVENT,
    type := .EVENT_FLAG, color := { r := 0, g := 0, b := 0, a := 0 },
    steps := 0, isHat := false }

structure State where
  spriteX : Int
  spriteY : Int
  spriteVisible : Bool
  palette : List Block
  catHeaders : List PaletteHeader
  workspace : List Block
  dragging : Bool
  dragBlock : Block
  dragOffX : Int
  dragOffY : Int
  dragFromPalette : Bool
  dragWorkspaceIdx : Int
  editingValue : Bool
  editingIdx : Int
  inputBuffer : String
  scriptRunning : Bool
  scriptStep : Int
  lastStepTime : Nat
deriving DecidableEq

/-- The `addHeader` lambda of `BuildPalette`. -/
def addHeader (acc : List Block × List PaletteHeader × Int) (name : String) :
    List Block × List PaletteHeader × Int :=
  (acc.1, acc.2.1 ++ [{ name := name, yPos := acc.2.2 }], acc.2.2 + 35)

/-- The `mk` lambda of `BuildPalette`. -/
def mk (acc : List Block × List PaletteHeader × Int) (t : BlockType)
    (bc : BlockCategory) (col : SDL_Color) (hat : Bool) (defaultVal : Int) :
    List Block × List PaletteHeader × Int :=
  let h : Int := if hat then BLOCK_H + 12 else BLOCK_H
  let b : Block :=
    { rect := { x := 25, y := if hat then acc.2.2 + 14 else acc.2.2, w := BLOCK_W, h := h },
      category := bc, type := t, color := col, steps := defaultVal, isHat := hat }
  (acc.1 ++ [b], acc.2.1, acc.2.2 + h + BLOCK_GAP + (if hat then 14 else 0))

/-- `BuildPalette` of part_000: clears the catalog and headers, then
rebuilds both (hence idempotent). -/
def BuildPalette (palette : List Block) (catHeaders : List PaletteHeader) :
    List Block × List PaletteHeader :=
  let _ := palette
  let _ := catHeaders
  let a0 : List Block × List PaletteHeader × Int := ([], [], 20)
  let a1 := addHeader a0 "Events"
  let a2 := mk a1 .EVENT_FLAG .BCAT_EVENT COL_EVENTS true 0
  let a2 := (a2.1, a2.2.1, a2.2.2 + 15)
  let a3 := addHeader a2 "Motion"
  let a4 := mk a3 .CHANGE_X .BCAT_MOTION COL_MOTION false 10
  let a5 := mk a4 .CHANGE_Y .BCAT_MOTION COL_MOTION false 10
  let a6 := mk a5 .SET_X .BCAT_MOTION COL_MOTION false 0
  let a7 := mk a6 .SET_Y .BCAT_MOTION COL_MOTION false 0
  let a7 := (a7.1, a7.2.1, a7.2.2 + 15)
  let a8 := addHeader a7 "Looks"
  let a9 := mk a8 .LOOKS_SHOW .BCAT_LOOKS COL_LOOKS false 0
  let a10 := mk a9 .LOOKS_HIDE .BCAT_LOOKS COL_LOOKS false 0
  (a10.1, a10.2.1)

/-- The body of `LayoutWorkspace`, threading the running `yy` coordinate. -/
def layoutGo (yy : Int) : List Block → List Block
  | [] => []
  | b :: rest =>
    let h : Int := if b.isHat then BLOCK_H + 12 else BLOCK_H
    let r : SDL_Rect :=
      { x := SCRIPTS_X + 20, y := (if b.isHat then yy + 14 else yy), w := BLOCK_W + 20, h := h }
    let b1 : Block := { b with rect := r }
    b1 :: layoutGo ((if b.isHat then yy + 14 else yy) + h + BLOCK_GAP) rest

/-- `LayoutWorkspace`: every rectangle is a pure function of sequence
position and hat-ness. -/
def LayoutWorkspace (ws : List Block) : List Block :=
  layoutGo 60 ws

/-- `StartScript` of part_000: always starts; skips slot 0 exactly when it
holds the flag block. -/
def StartScript (now : Nat) (s : State) : State :=
  let base := { s with scriptRunning := true, scriptStep := (0 : Int), lastStepTime := now }
  match s.workspace with
  | b :: _ => if b.type = BlockType.EVENT_FLAG then { base with scriptStep := 1 } else base
  | [] => base

/-- `Uint32` subtraction `a - b` (wraparound modulo `2^32`). -/
def u32sub (a b : Nat) : Nat :=
  (a + 4294967296 - b % 4294967296) % 4294967296

def clampI (lo hi v : Int) : Int := max lo (min hi v)

/-- Placeholder for (unreachable) out-of-range vector indexing. -/
def defaultBlock2 : Block := zeroBlock

/-- The `switch (b.type)` of part_000's `UpdateScript`. -/
def applyEffect2 (b : Block) (s : State) : State :=
  match b.type with
  | .CHANGE_X => { s with spriteX := s.spriteX + b.steps }
  | .CHANGE_Y => { s with spriteY := s.spriteY - b.steps }
  | .SET_X => { s with spriteX := STAGE_W / 2 + b.steps }
  | .SET_Y => { s with spriteY := STAGE_H / 2 - b.steps }
  | .LOOKS_SHOW => { s with spriteVisible := true }
  | .LOOKS_HIDE => { s with spriteVisible := false }
  | .EVENT_FLAG => s

/-- `UpdateScript` of part_000; `now` is the `SDL_GetTicks` value. -/
def UpdateScript (now : Nat) (s : State) : State :=
  if s.scriptRunning = false then s
  else if (s.workspace.length : Int) ≤ s.scriptStep then { s with scriptRunning := false }
  else if u32sub now s.lastStepTime < 400 then s
  else
    let cur := (s.workspace.get? s.scriptStep.toNat).getD defaultBlock2
    let s1 := { s with lastStepTime := now }
    let s2 := applyEffect2 cur s1
    let s3 := { s2 with spriteX := clampI 30 (STAGE_W - 30) s2.spriteX,
                        spriteY := clampI 30 (STAGE_H - 30) s2.spriteY }
    let s4 := { s3 with scriptStep := s.scriptStep + 1 }
    -- the final guard re-reads scriptStep (just set to s.scriptStep + 1) and
    -- workspace.size() (untouched by the switch, which only moves the sprite)
    if (s.workspace.length : Int) ≤ s.scriptStep + 1 then { s4 with scriptRunning := false }
    else s4

/-- In-place `workspace[i].steps = v`; out of range is a no-op. -/
def modifySteps2 : List Block → Nat → Int → List Block
  | [], _, _ => []
  | b :: rest, 0, v => { b with steps := v } :: rest
  | b :: rest, n+1, v => b :: modifySteps2 rest n v

/-- The committed value of a buffer: empty or lone minus gives 0, a
`std::stoi` failure is caught and also gives 0. -/
def commitVal (buf : String) : Int :=
  if buf = "-" ∨ buf = "" then 0
  else
    match stoi buf with
    | some v => v
    | none => 0

/-- The commit snippet shared by the Enter handler and the
click-outside-the-badge handler (guarded by a range check on the index). -/
def commitSteps (s : State) : State :=
  if 0 ≤ s.editingIdx ∧ s.editingIdx < (s.workspace.length : Int) then
    { s with workspace := modifySteps2 s.workspace s.editingIdx.toNat (commitVal s.inputBuffer) }
  else s

/-- Commit and leave the edit session: the shared shape of both commit
sites (Enter, and pointer-down outside every pill). -/
def commitAndClose (s : State) : State :=
  { commitSteps s with editingValue := false }

/-- `SDL_TEXTINPUT` while editing: each byte of the event text is appended
when it is a digit, or a minus into an empty buffer.  No length limit. -/
def onTextInput2 (txt : List Char) (s : State) : State :=
  if s.editingValue = true then
    { s with inputBuffer := txt.foldl (fun buf ch =>
        if ch.isDigit then buf.push ch
        else if ch = '-' ∧ buf = "" then buf.push ch
        else buf) s.inputBuffer }
  else s

/-- `SDL_KEYDOWN` while editing (part_000 handles no keys otherwise). -/
def onKeyDown2 (key : SDLKey) (s : State) : State :=
  if s.editingValue = true then
    if key = SDLKey.SDLK_RETURN ∨ key = SDLKey.SDLK_KP_ENTER then
      commitAndClose s
    else if key = SDLKey.SDLK_ESCAPE then { s with editingValue := false }
    else if key = SDLKey.SDLK_BACKSPACE ∧ s.inputBuffer ≠ "" then
      { s with inputBuffer := s.inputBuffer.dropRight 1 }
    else s
  else s

def goBtn : SDL_Rect := { x := STAGE_X + 10, y := STAGE_Y + STAGE_H + 50, w := 90, h := 36 }

def stopBtn : SDL_Rect := { x := STAGE_X + 110, y := STAGE_Y + STAGE_H + 50, w := 90, h := 36 }

def wsRect : SDL_Rect := { x := SCRIPTS_X, y := 0, w := SCRIPTS_W, h := WINDOW_H }

/-- The value pill rectangle, as recomputed by the badge hit test. -/
def pillRect (b : Block) : SDL_Rect :=
  { x := b.rect.x + b.rect.w - 46 - 8, y := b.rect.y + (b.rect.h - 22) / 2, w := 46, h := 22 }

def isValueType (t : BlockType) : Prop :=
  t = BlockType.CHANGE_X ∨ t = BlockType.CHANGE_Y ∨ t = BlockType.SET_X ∨ t = BlockType.SET_Y

instance (t : BlockType) : Decidable (isValueType t) := by
  unfold isValueType
  infer_instance

/-- The pill-click scan of the mouse-down handler. -/
def findPill (mx my : Int) : List Block → Nat → Option (Nat × Block)
  | [], _ => none
  | b :: rest, i =>
    if isValueType b.type ∧ SDL_PointInRect mx my (pillRect b) then some (i, b)
    else findPill mx my rest (i + 1)

/-- Forward scan for the first palette block containing the point. -/
def findHit2 (mx my : Int) : List Block → Option Block
  | [] => none
  | b :: rest => if SDL_PointInRect mx my b.rect then some b else findHit2 mx my rest

/-- Backward scan (`i = size-1 .. 0`): highest workspace index hit. -/
def findHitTop2 (mx my : Int) : List Block → Option Nat
  | [] => none
  | b :: rest =>
    match findHitTop2 mx my rest with
    | some j => some (j + 1)
    | none => if SDL_PointInRect mx my b.rect then some 0 else none

/-- Left `SDL_MOUSEBUTTONDOWN` of part_000: GO button (starts only when not
running), STOP button, pill scan (begins a fresh edit, committing nothing),
commit-on-click-outside, palette pick-up (copies the template), workspace
pick-up (erases the block at once and relayouts). -/
def onMouseDown2 (now : Nat) (mx my : Int) (s : State) : State :=
  if SDL_PointInRect mx my goBtn then
    if s.scriptRunning = false then StartScript now s else s
  else if SDL_PointInRect mx my stopBtn then { s with scriptRunning := false }
  else
    match findPill mx my s.workspace 0 with
    | some (i, b) =>
      { s with editingValue := true, editingIdx := (i : Int), inputBuffer := toString b.steps }
    | none =>
      let s := if s.editingValue = true then commitAndClose s else s
      match findHit2 mx my s.palette with
      | some b =>
        { s with dragging := true, dragFromPalette := true, dragBlock := b,
                 dragOffX := mx - b.rect.x, dragOffY := my - b.rect.y }
      | none =>
        if s.dragging = false then
          match findHitTop2 mx my s.workspace with
          | some i =>
            let b := (s.workspace.get? i).getD defaultBlock2
            { s with dragging := true, dragFromPalette := false,
                     dragWorkspaceIdx := (i : Int), dragBlock := b,
                     dragOffX := mx - b.rect.x, dragOffY := my - b.rect.y,
                     workspace := LayoutWorkspace (s.workspace.eraseIdx i) }
          | none => s
        else s

def onMouseMotion2 (mx my : Int) (s : State) : State :=
  if s.dragging = true then
    { s with dragBlock := { s.dragBlock with
        rect := { s.dragBlock.rect with x := mx - s.dragOffX, y := my - s.dragOffY } } }
  else s

/-- The drop-position scan: index of the first block whose vertical midpoint
lies below the drop `y`; the length when none qualifies. -/
def insertPos (my : Int) : List Block → Nat
  | [] => 0
  | b :: rest => if my < b.rect.y + b.rect.h / 2 then 0 else insertPos my rest + 1

/-- `vector::insert(begin() + i, b)` (the scan never yields `i > length`). -/
def insertAt : List Block → Nat → Block → List Block
  | l, 0, b => b :: l
  | [], _+1, b => [b]
  | x :: xs, n+1, b => x :: insertAt xs n b

/-- Left `SDL_MOUSEBUTTONUP` while dragging: insert at the scan position
when released inside the workspace strip, otherwise discard; then clear the
drag session and relayout. -/
def onMouseUp2 (mx my : Int) (s : State) : State :=
  if s.dragging = true then
    let s1 :=
      if SDL_PointInRect mx my wsRect then
        { s with workspace := insertAt s.workspace (insertPos my s.workspace) s.dragBlock }
      else s
    { s1 with dragging := false, dragWorkspaceIdx := -1,
              workspace := LayoutWorkspace s1.workspace }
  else s

inductive Event
  | textInput (txt : List Char)
  | keyDown (key : SDLKey)
  | mouseDown (mx my : Int)
  | mouseMotion (mx my : Int)
  | mouseUp (mx my : Int)

def handleEvent (now : Nat) (e : Event) (s : State) : State :=
  match e with
  | .textInput txt => onTextInput2 txt s
  | .keyDown key => onKeyDown2 key s
  | .mouseDown mx my => onMouseDown2 now mx my s
  | .mouseMotion mx my => onMouseMotion2 mx my s
  | .mouseUp mx my => onMouseUp2 mx my s

inductive Action
  | ev (now : Nat) (e : Event)
  | tick (now : Nat)

def stepA (a : Action) (s : State) : State :=
  match a with
  | .ev now e => handleEvent now e s
  | .tick now => UpdateScript now s

def runActs (acts : List Action) (s : State) : State :=
  match acts with
  | [] => s
  | a :: rest => runActs rest (stepA a s)

/-- Program state right after start-up (`BuildPalette` done, empty script). -/
def initState : State :=
  { spriteX := 200, spriteY := 200, spriteVisible := true,
    palette := (BuildPalette [] []).1, catHeaders := (BuildPalette [] []).2,
    workspace := [],
    dragging := false, dragBlock := zeroBlock, dragOffX := 0, dragOffY := 0,
    dragFromPalette := false, dragWorkspaceIdx := -1,
    editingValue := false, editingIdx := -1, inputBuffer := "",
    scriptRunning := false, scriptStep := 0, lastStepTime := 0 }

/-- A tick call in which the delay gate passes and a block effect is applied. -/
def gatedTick2 (now : Nat) (s : State) : Prop :=
  s.scriptRunning = true ∧ s.scriptStep < (s.workspace.length : Int) ∧
    400 ≤ u32sub now s.lastStepTime

instance (now : Nat) (s : State) : Decidable (gatedTick2 now s) := by
  unfold gatedTick2
  infer_instance

def runTicks2 (ts : List Nat) (s : State) : State :=
  match ts with
  | [] => s
  | t :: rest => runTicks2 rest (UpdateScript t s)

def gatedCount2 (ts : List Nat) (s : State) : Nat :=
  match ts with
  | [] => 0
  | t :: rest => (if gatedTick2 t s then 1 else 0) + gatedCount2 rest (UpdateScript t s)

/-- Tick times 400 apart, the fastest schedule on which every gate passes. -/
def sched2 (last : Nat) : Nat → List Nat
  | 0 => []
  | n+1 => (last + 400) :: sched2 (last + 400) n

end V2

/-- The insertion-index rule in the spec's own words: "scanning the current
sequence top-to-bottom, the first block whose vertical midpoint lies below
the drop Y-coordinate becomes the insertion point; if none qualifies,
append at the end". -/
def specInsertIdx (my : Int) (ws : List V2.Block) : Nat :=
  ws.findIdx (fun b => decide (my < b.rect.y + b.rect.h / 2))

/-- The buffer grammar enforced by both text-input handlers: an optional
leading minus followed by digits only. -/
def sanitizedBuf (s : String) : Prop :=
  match s.data with
  | '-' :: ds => ∀ c ∈ ds, c.isDigit
  | ds => ∀ c ∈ ds, c.isDigit

instance (s : String) : Decidable (sanitizedBuf s) := by
  unfold sanitizedBuf
  split
  · exact List.decidableBAll _ _
  · exact List.decidableBAll _ _

/-! Concrete blocks, states and event traces used by the witnesses and
counterexamples below. -/

/-- The workspace region of main.cpp's renderer (`wsRect` in `Render`). -/
def workspaceRegionV1 : SDL_Rect :=
  { x := V1.WORKSPACE_X, y := 0, w := V1.WORKSPACE_W, h := 650 }

/-- A main.cpp `Move X` block sitting in the workspace at (300, 300). -/
def mxBlockV1 (v : Int) : V1.Block :=
  { rect := { x := 300, y := 300, w := 170, h := 38 }, cat := .MOTION,
    type := .MOVE_X, color := V1.colMotion, steps := v }

/-- A main.cpp flag block sitting in the workspace at (300, 100). -/
def flagBlockV1 : V1.Block :=
  { rect := { x := 300, y := 100, w := 170, h := 38 }, cat := .EVENT,
    type := .EVENT_FLAG, color := V1.colEvent, steps := 0 }

/-- Edit session on a block of value 7 whose buffer was emptied. -/
def c1state : V1.State :=
  { V1.initState with workspace := [mxBlockV1 7], editingIdx := 0, editBuffer := "" }

/-- Edit session on a block of value 10 with pending buffer "105". -/
def c5state : V1.State :=
  { V1.initState with workspace := [mxBlockV1 10], editingIdx := 0, editBuffer := "105" }

/-- Drag a palette `Show` block into the workspace, then pick it up again
and release it over the stage (x = 800, outside the workspace region). -/
def c6trace : List V1.Action :=
  [ .ev 0 (.mouseDown 20 175),
    .ev 0 (.mouseMotion 385 119),
    .ev 0 (.mouseUp 400 300),
    .ev 0 (.mouseDown 310 110),
    .ev 0 (.mouseUp 800 50) ]

/-- Place a `Move X` block at y = 300, then drop a palette `Show` block at
y = 119, above the existing block's midpoint. -/
def c7trace : List V1.Action :=
  [ .ev 0 (.mouseDown 20 70),
    .ev 0 (.mouseMotion 385 319),
    .ev 0 (.mouseUp 400 319),
    .ev 0 (.mouseDown 20 175),
    .ev 0 (.mouseMotion 385 119),
    .ev 0 (.mouseUp 350 119) ]

/-- Drag the flag block into the part_000 workspace, press GO (so the run
starts past the flag), then pick the flag block up while running. -/
def c4trace : List V2.Action :=
  [ .ev 0 (.mouseDown 30 75),
    .ev 0 (.mouseUp 400 100),
    .ev 1000 (.mouseDown 765 475),
    .ev 1000 (.mouseDown 300 90) ]

/-- Commit 99999 into a `Move X` block, wheel it up to 100004, then click
its badge: the buffer becomes the six-character string "100004". -/
def c10trace : List V1.Action :=
  [ .ev 0 (.mouseDown 20 70),
    .ev 0 (.mouseMotion 385 319),
    .ev 0 (.mouseUp 400 319),
    .ev 0 (.mouseDown 415 315),
    .ev 0 (.keyDown .SDLK_BACKSPACE),
    .ev 0 (.keyDown .SDLK_BACKSPACE),
    .ev 0 (.textInput '9'),
    .ev 0 (.textInput '9'),
    .ev 0 (.textInput '9'),
    .ev 0 (.textInput '9'),
    .ev 0 (.textInput '9'),
    .ev 0 (.keyDown .SDLK_RETURN),
    .ev 0 (.wheel 1 350 310),
    .ev 0 (.mouseDown 415 315) ]

/-- `c10trace` followed by Enter, committing the six-character buffer. -/
def c10full : List V1.Action :=
  c10trace ++ [ .ev 0 (.keyDown .SDLK_RETURN) ]

/-- A part_000 `Change X` block as laid out at workspace index 0. -/
def cxBlockV2 (v : Int) : V2.Block :=
  { rect := { x := 280, y := 60, w := 210, h := 40 }, category := .BCAT_MOTION,
    type := .CHANGE_X, color := V2.COL_MOTION, steps := v, isHat := false }

/-- A part_000 flag block as laid out at workspace index 0. -/
def flagBlockV2 : V2.Block :=
  { rect := { x := 280, y := 74, w := 210, h := 52 }, category := .BCAT_EVENT,
    type := .EVENT_FLAG, color := V2.COL_EVENTS, steps := 0, isHat := true }

/-- A part_000 workspace `[flag, Change X 10]` ready to run. -/
def c3stateV2 : V2.State :=
  { V2.initState with workspace := V2.LayoutWorkspace [flagBlockV2, cxBlockV2 10] }

/-- A main.cpp workspace `[flag, Move X 10]` ready to run. -/
def c3stateV1 : V1.State :=
  { V1.initState with workspace := [flagBlockV1, mxBlockV1 10] }

/-- Edit session in the part_000 variant: buffer "15" on block 0. -/
def c5stateV2 : V2.State :=
  { V2.initState with
      workspace := V2.LayoutWorkspace [cxBlockV2 7],
      editingValue := true, editingIdx := 0, inputBuffer := "15" }

/-- A part_000 workspace holding one `Change X` block. -/
def c6stateV2 : V2.State :=
  { V2.initState with workspace := V2.LayoutWorkspace [cxBlockV2 10] }

/-- A main.cpp workspace holding one `Move X 10` block, no edit active. -/
def c9state : V1.State :=
  { V1.initState with workspace := [mxBlockV1 10] }

/-- A part_000 drag session: one laid-out block, dragging a `Change X 99`. -/
def c7stateV2 : V2.State :=
  { V2.initState with
      workspace := V2.LayoutWorkspace [cxBlockV2 10],
      dragging := true, dragBlock := cxBlockV2 99 }

/-!
Theorems.  Claim theorems are named `Cn_...`; the lemmas before them are
shared infrastructure.
-/

/-- A decimal digit character has code point between 48 and 57. -/
theorem isDigit_toNat {c : Char} (h : c.isDigit = true) : 48 ≤ c.toNat ∧ c.toNat ≤ 57 := by
  simp only [Char.isDigit, ge_iff_le, Bool.and_eq_true, decide_eq_true_eq] at h
  obtain ⟨h1, h2⟩ := h
  exact ⟨UInt32.le_toNat_of_le (by decide) h1, UInt32.toNat_le_of_le (by decide) h2⟩

/-- C8: part_000's `BuildPalette` clears before rebuilding, hence running it
twice equals running it once; main.cpp's `BuildPalette` instead appends five
templates to whatever catalog exists. -/
theorem C8_palette :
    (∀ (p : List V2.Block) (h : List V2.PaletteHeader),
        V2.BuildPalette (V2.BuildPalette p h).1 (V2.BuildPalette p h).2 = V2.BuildPalette p h) ∧
    (∀ pal : List V1.Block, (V1.BuildPalette pal).length = pal.length + 5) := by
  constructor
  · intro p h
    rfl
  · intro pal
    simp [V1.BuildPalette, V1.paletteAdd]

/-- C8 witness: the idempotence and the append count at concrete inputs. -/
theorem C8_palette_witness :
    V2.BuildPalette (V2.BuildPalette [] []).1 (V2.BuildPalette [] []).2
      = V2.BuildPalette [] [] ∧
    (V1.BuildPalette []).length = 5 := by
  constructor
  · exact C8_palette.1 [] []
  · have h := C8_palette.2 []
    simpa using h

/-- C8 counterexample: in main.cpp a second `BuildPalette` call does not
reproduce the first call's catalog — it doubles it to ten blocks. -/
theorem C8_counterexample :
    ¬ (V1.BuildPalette (V1.BuildPalette []) = V1.BuildPalette []) ∧
    (V1.BuildPalette (V1.BuildPalette [])).length = 10 ∧
    (V1.BuildPalette []).length = 5 := by
  refine ⟨by decide, by decide, by decide⟩

/-- C9: with no edit session active, a wheel event adds 5 (wheel up) or
subtracts 5 (otherwise) to the value of every motion-kind workspace block
whose rectangle contains the pointer, leaving every other block and the
edit state untouched — a direct value-mutation path that never consults the
edit buffer. -/
theorem C9_wheel (s : V1.State) (now wy mx my : Int) (h : s.editingIdx = -1) :
    (V1.handleEvent now (V1.Event.wheel wy mx my) s).workspace
      = s.workspace.map (fun b =>
          if (b.type = V1.BlockType.MOVE_X ∨ b.type = V1.BlockType.MOVE_Y) ∧
              SDL_PointInRect mx my b.rect
          then { b with steps := b.steps + (if 0 < wy then 5 else -5) } else b) ∧
    (V1.handleEvent now (V1.Event.wheel wy mx my) s).editingIdx = -1 ∧
    (V1.handleEvent now (V1.Event.wheel wy mx my) s).editBuffer = s.editBuffer := by
  simp [V1.handleEvent, V1.onWheel, h]

/-- C9 witness: wheel-up over a `Move X 10` block turns it into 15. -/
theorem C9_wheel_witness :
    c9state.editingIdx = -1 ∧
    (V1.handleEvent 0 (V1.Event.wheel 1 350 310) c9state).workspace = [mxBlockV1 15] := by
  constructor
  · decide
  · have h := (C9_wheel c9state 0 1 350 310 (by decide)).1
    rw [h]
    decide

/-- `findFlag` returns the index of the first flag block: that index holds a
flag and nothing before it does. -/
theorem findFlag_first (ws : List V1.Block) (k : Nat) (h : V1.findFlag ws = some k) :
    ∃ b, ws.get? k = some b ∧ b.type = V1.BlockType.EVENT_FLAG ∧
      ∀ j bj, j < k → ws.get? j = some bj → bj.type ≠ V1.BlockType.EVENT_FLAG := by
  induction ws generalizing k with
  | nil => simp [V1.findFlag] at h
  | cons b rest ih =>
    simp only [V1.findFlag] at h
    split at h
    · obtain rfl : k = 0 := by simpa using h.symm
      refine ⟨b, rfl, by assumption, ?_⟩
      intro j bj hj
      omega
    · obtain ⟨k1, hk1, rfl⟩ : ∃ k1, V1.findFlag rest = some k1 ∧ k1 + 1 = k := by
        simpa using h
      obtain ⟨b1, hb1, hty, hall⟩ := ih k1 hk1
      refine ⟨b1, by simpa using hb1, hty, ?_⟩
      intro j bj hj hget
      match j with
      | 0 =>
        simp only [List.get?] at hget
        obtain rfl : b = bj := by simpa using hget
        assumption
      | j1 + 1 =>
        exact hall j1 bj (by omega) (by simpa using hget)

/-- The index of the first flag block is inside the sequence. -/
theorem findFlag_lt (ws : List V1.Block) (k : Nat) (h : V1.findFlag ws = some k) :
    k < ws.length := by
  obtain ⟨b, hb, -, -⟩ := findFlag_first ws k h
  exact (List.get?_eq_some.mp hb).1

/-- `StartScript` of main.cpp never touches the workspace. -/
theorem v1_start_workspace (now : Int) (s : V1.State) :
    (V1.StartScript now s).workspace = s.workspace := by
  unfold V1.StartScript
  split <;> rfl

/-- C2 (amended): in part_000 `start()` always sets running, records the
timestamp and starts at index 1 exactly when slot 0 holds the flag kind
(index 0 otherwise); in main.cpp `start()` scans for the first flag block —
when one exists at index k it sets running, records the timestamp and starts
at k+1, and when none exists it is a complete no-op, leaving running false. -/
theorem C2_start :
    (∀ (s : V2.State) (now : Nat),
        (V2.StartScript now s).scriptRunning = true ∧
        (V2.StartScript now s).lastStepTime = now ∧
        (V2.StartScript now s).scriptStep =
          (match s.workspace with
           | b :: _ => if b.type = V2.BlockType.EVENT_FLAG then 1 else 0
           | [] => 0)) ∧
    (∀ (s : V1.State) (now : Int),
        (∀ k, V1.findFlag s.workspace = some k →
            (V1.StartScript now s).running = true ∧
            (V1.StartScript now s).scriptStep = (k : Int) + 1 ∧
            (V1.StartScript now s).lastStepTime = now ∧
            (V1.StartScript now s).highlightIdx = (k : Int)) ∧
        (V1.findFlag s.workspace = none → V1.StartScript now s = s)) ∧
    (∀ (ws : List V1.Block) (k : Nat), V1.findFlag ws = some k →
        ∃ b, ws.get? k = some b ∧ b.type = V1.BlockType.EVENT_FLAG ∧
          ∀ j bj, j < k → ws.get? j = some bj → bj.type ≠ V1.BlockType.EVENT_FLAG) := by
  refine ⟨?_, ?_, findFlag_first⟩
  · intro s now
    unfold V2.StartScript
    match hw : s.workspace with
    | [] => exact ⟨rfl, rfl, rfl⟩
    | b :: rest =>
      by_cases hb : b.type = V2.BlockType.EVENT_FLAG
      · simp [hb]
      · simp [hb]
  · intro s now
    constructor
    · intro k hk
      unfold V1.StartScript
      rw [hk]
      exact ⟨rfl, rfl, rfl, rfl⟩
    · intro hn
      unfold V1.StartScript
      rw [hn]

/-- C2 witness: starting `[flag, Move X 10]` in main.cpp begins at step 1;
starting `[flag, Change X 10]` in part_000 sets running. -/
theorem C2_start_witness :
    V1.findFlag c3stateV1.workspace = some 0 ∧
    (V1.StartScript 7 c3stateV1).running = true ∧
    (V1.StartScript 7 c3stateV1).scriptStep = 1 ∧
    (V2.StartScript 7 c3stateV2).scriptRunning = true := by
  refine ⟨by decide, ?_, ?_, ?_⟩
  · exact ((C2_start.2.1 c3stateV1 7).1 0 (by decide)).1
  · have h := ((C2_start.2.1 c3stateV1 7).1 0 (by decide)).2.1
    simpa using h
  · exact (C2_start.1 c3stateV2 7).1

/-- C2 counterexample: on a workspace with no trigger block (here: the empty
start-up workspace) main.cpp's `StartScript` does not set running to true —
it does nothing at all — refuting "calling start() sets running to true" for
every workspace. -/
theorem C2_counterexample :
    (V1.StartScript 5 V1.initState).running = false ∧
    V1.StartScript 5 V1.initState = V1.initState := by
  exact ⟨by decide, by decide⟩

/-- C1 (amended): in part_000 the Enter commit stores `commitVal` of the
buffer — 0 for the empty buffer, 0 for a lone minus, the parsed integer
otherwise, and 0 as the caught-exception fallback; in main.cpp a commit on
an empty buffer, a lone minus, or a failed parse leaves the block's prior
value unchanged (nothing is stored), and otherwise stores the parsed
integer.  No exception escapes in either variant (the handlers are total).
-/
theorem C1_commit :
    (∀ (s : V2.State),
        s.editingValue = true → 0 ≤ s.editingIdx → s.editingIdx < (s.workspace.length : Int) →
        (V2.onKeyDown2 SDLKey.SDLK_RETURN s).editingValue = false ∧
        (V2.onKeyDown2 SDLKey.SDLK_RETURN s).workspace
          = V2.modifySteps2 s.workspace s.editingIdx.toNat (V2.commitVal s.inputBuffer)) ∧
    (V2.commitVal "" = 0 ∧ V2.commitVal "-" = 0 ∧ V2.commitVal "-15" = -15 ∧
      V2.commitVal "42" = 42) ∧
    (∀ (s : V1.State), 0 ≤ s.editingIdx →
        ((s.editBuffer = "" ∨ s.editBuffer = "-" ∨ stoi s.editBuffer = none →
            (V1.onKeyDown 0 SDLKey.SDLK_RETURN s).workspace = s.workspace) ∧
         (∀ v, stoi s.editBuffer = some v → s.editBuffer ≠ "" → s.editBuffer ≠ "-" →
            (V1.onKeyDown 0 SDLKey.SDLK_RETURN s).workspace
              = V1.modifySteps s.workspace s.editingIdx.toNat v) ∧
         (V1.onKeyDown 0 SDLKey.SDLK_RETURN s).editingIdx = -1)) := by
  refine ⟨?_, ⟨by decide, by decide, by decide, by decide⟩, ?_⟩
  · intro s h1 h2 h3
    constructor
    · simp [V2.onKeyDown2, V2.commitAndClose, h1]
    · simp [V2.onKeyDown2, V2.commitAndClose, V2.commitSteps, h1, h2, h3]
  · intro s h
    have hred : V1.onKeyDown 0 SDLKey.SDLK_RETURN s
        = { s with workspace := V1.commitBuf s.editBuffer s.workspace s.editingIdx.toNat,
                   editingIdx := -1, editBuffer := "" } := by
      simp [V1.onKeyDown, h]
    refine ⟨?_, ?_, ?_⟩
    · intro hcase
      rw [hred]
      show V1.commitBuf s.editBuffer s.workspace s.editingIdx.toNat = s.workspace
      unfold V1.commitBuf
      rcases hcase with h0 | h0 | h0
      · simp [h0]
      · simp [h0]
      · split
        · rw [h0]
        · rfl
    · intro v hv hne1 hne2
      rw [hred]
      show V1.commitBuf s.editBuffer s.workspace s.editingIdx.toNat
          = V1.modifySteps s.workspace s.editingIdx.toNat v
      unfold V1.commitBuf
      rw [if_pos ⟨hne1, hne2⟩, hv]
    · rw [hred]

/-- C1 witness: committing "15" in part_000 stores 15; committing the empty
buffer in main.cpp leaves the prior value 7 in place. -/
theorem C1_commit_witness :
    c5stateV2.editingValue = true ∧
    (V2.onKeyDown2 SDLKey.SDLK_RETURN c5stateV2).workspace.map V2.Block.steps = [15] ∧
    (V1.onKeyDown 0 SDLKey.SDLK_RETURN c1state).workspace.map V1.Block.steps = [7] := by
  refine ⟨by decide, ?_, ?_⟩
  · have h := (C1_commit.1 c5stateV2 (by decide) (by decide) (by decide)).2
    rw [h]
    decide
  · have h := (C1_commit.2.2 c1state (by decide)).1 (Or.inl (by decide))
    rw [h]
    decide

/-- C1 counterexample: in main.cpp, committing the empty buffer on a block
whose value is 7 retains 7 — it does not commit 0 as the claim states. -/
theorem C1_counterexample :
    ((V1.handleEvent 0 (V1.Event.keyDown SDLKey.SDLK_RETURN) c1state).workspace.get? 0).map
        V1.Block.steps = some 7 ∧
    (V1.handleEvent 0 (V1.Event.keyDown SDLKey.SDLK_RETURN) c1state).editingIdx = -1 ∧
    ¬ (((V1.handleEvent 0 (V1.Event.keyDown SDLKey.SDLK_RETURN) c1state).workspace.get? 0).map
        V1.Block.steps = some 0) := by
  refine ⟨by decide, by decide, by decide⟩

/-- C5 counterexample: in main.cpp a pointer-down outside the edited badge
cancels the session — block 0 keeps its prior value 10 instead of receiving
the committed value 105 of the pending buffer. -/
theorem C5_counterexample :
    (V1.handleEvent 0 (V1.Event.mouseDown 250 50) c5state).editingIdx = -1 ∧
    ((V1.handleEvent 0 (V1.Event.mouseDown 250 50) c5state).workspace.get? 0).map
        V1.Block.steps = some 10 ∧
    ¬ (((V1.handleEvent 0 (V1.Event.mouseDown 250 50) c5state).workspace.get? 0).map
        V1.Block.steps = some 105) := by
  refine ⟨by decide, by decide, by decide⟩

/-- Updating a block's value leaves every hit rectangle unchanged. -/
theorem findHitTop2_msteps (mx my : Int) (ws : List V2.Block) (i : Nat) (v : Int) :
    V2.findHitTop2 mx my (V2.modifySteps2 ws i v) = V2.findHitTop2 mx my ws := by
  induction ws generalizing i with
  | nil => rfl
  | cons b rest ih =>
    match i with
    | 0 => simp [V2.modifySteps2, V2.findHitTop2]
    | n+1 => simp [V2.modifySteps2, V2.findHitTop2, ih n]

/-- The commit snippet only touches the workspace's `steps` values. -/
theorem v2_commitSteps_palette (s : V2.State) : (V2.commitSteps s).palette = s.palette := by
  unfold V2.commitSteps
  split <;> rfl

/-- The commit snippet does not touch the drag flag. -/
theorem v2_commitSteps_dragging (s : V2.State) : (V2.commitSteps s).dragging = s.dragging := by
  unfold V2.commitSteps
  split <;> rfl

/-- The commit snippet moves no block, so the workspace hit scan agrees. -/
theorem v2_commitSteps_hitTop (mx my : Int) (s : V2.State) :
    V2.findHitTop2 mx my (V2.commitSteps s).workspace = V2.findHitTop2 mx my s.workspace := by
  unfold V2.commitSteps
  split
  · exact findHitTop2_msteps mx my s.workspace s.editingIdx.toNat (V2.commitVal s.inputBuffer)
  · rfl

/-- Committing and closing the session keeps the palette. -/
theorem v2_cac_palette (s : V2.State) : (V2.commitAndClose s).palette = s.palette := by
  rw [show (V2.commitAndClose s).palette = (V2.commitSteps s).palette from rfl]
  exact v2_commitSteps_palette s

/-- Committing and closing the session keeps the drag flag. -/
theorem v2_cac_dragging (s : V2.State) : (V2.commitAndClose s).dragging = s.dragging := by
  rw [show (V2.commitAndClose s).dragging = (V2.commitSteps s).dragging from rfl]
  exact v2_commitSteps_dragging s

/-- Committing and closing the session keeps every hit rectangle. -/
theorem v2_cac_hitTop (mx my : Int) (s : V2.State) :
    V2.findHitTop2 mx my (V2.commitAndClose s).workspace
      = V2.findHitTop2 mx my s.workspace := by
  rw [show (V2.commitAndClose s).workspace = (V2.commitSteps s).workspace from rfl]
  exact v2_commitSteps_hitTop mx my s

/-- Updating one block's value moves no pill rectangle, so a pill scan that
found nothing still finds nothing afterwards. -/
theorem findPill_msteps_none (mx my : Int) (ws : List V2.Block) (i : Nat) (v : Int) (k : Nat)
    (h : V2.findPill mx my ws k = none) :
    V2.findPill mx my (V2.modifySteps2 ws i v) k = none := by
  induction ws generalizing i k with
  | nil =>
    simp only [V2.modifySteps2]
    exact h
  | cons b rest ih =>
    simp only [V2.findPill] at h
    match i with
    | 0 =>
      have ht : ({ b with steps := v } : V2.Block).type = b.type := rfl
      have hr : V2.pillRect { b with steps := v } = V2.pillRect b := rfl
      simp only [V2.modifySteps2, V2.findPill, ht, hr]
      by_cases hc : V2.isValueType b.type ∧ SDL_PointInRect mx my (V2.pillRect b)
      · rw [if_pos hc] at h
        simp at h
      · rw [if_neg hc] at h
        rw [if_neg hc]
        exact h
    | n+1 =>
      simp only [V2.modifySteps2, V2.findPill]
      by_cases hc : V2.isValueType b.type ∧ SDL_PointInRect mx my (V2.pillRect b)
      · rw [if_pos hc] at h
        simp at h
      · rw [if_neg hc] at h
        rw [if_neg hc]
        exact ih n (k + 1) h

/-- C5 (amended): in part_000 a pointer-down off the GO and STOP buttons
that hits no value pill while an edit session is active behaves exactly as
on the state whose buffer was already committed and whose session was
already closed (`commitAndClose`), and the editor ends idle; a pointer-down
on a value pill instead abandons the session without committing and starts
editing that block with a buffer freshly rendered from its value.  In
main.cpp any pointer-down while editing behaves exactly as on the cancelled
session (editing index -1, empty buffer), and every pre-existing workspace
entry is retained unchanged, so the pending buffer is never committed. -/
theorem C5_commitOnPointerDown :
    (∀ (s : V2.State) (now : Nat) (mx my : Int),
        s.editingValue = true →
        ¬ SDL_PointInRect mx my V2.goBtn →
        ¬ SDL_PointInRect mx my V2.stopBtn →
        (V2.findPill mx my s.workspace 0 = none →
          V2.handleEvent now (V2.Event.mouseDown mx my) s
            = V2.handleEvent now (V2.Event.mouseDown mx my) (V2.commitAndClose s) ∧
          (V2.handleEvent now (V2.Event.mouseDown mx my) s).editingValue = false) ∧
        (∀ (i : Nat) (b : V2.Block), V2.findPill mx my s.workspace 0 = some (i, b) →
          V2.handleEvent now (V2.Event.mouseDown mx my) s
            = { s with editingValue := true, editingIdx := (i : Int),
                       inputBuffer := toString b.steps })) ∧
    (∀ (s : V1.State) (now mx my : Int), 0 ≤ s.editingIdx →
        V1.handleEvent now (V1.Event.mouseDown mx my) s
          = V1.handleEvent now (V1.Event.mouseDown mx my)
              { s with editingIdx := -1, editBuffer := "" } ∧
        ∀ i, i < s.workspace.length →
          (V1.handleEvent now (V1.Event.mouseDown mx my) s).workspace.get? i
            = s.workspace.get? i) := by
  constructor
  · intro s now mx my h1 hgo hstop
    constructor
    · intro hpill
      have hp2 : V2.findPill mx my (V2.commitAndClose s).workspace 0 = none := by
        rw [show (V2.commitAndClose s).workspace = (V2.commitSteps s).workspace from rfl]
        unfold V2.commitSteps
        split
        · exact findPill_msteps_none mx my s.workspace s.editingIdx.toNat
            (V2.commitVal s.inputBuffer) 0 hpill
        · exact hpill
      have hf : (V2.commitAndClose s).editingValue = false := rfl
      have hne : ¬ ((V2.commitAndClose s).editingValue = true) := by
        rw [hf]
        exact Bool.false_ne_true
      constructor
      · show V2.onMouseDown2 now mx my s = V2.onMouseDown2 now mx my (V2.commitAndClose s)
        unfold V2.onMouseDown2
        simp only [if_neg hgo, if_neg hstop, hpill, hp2, h1, if_true, if_neg hne]
      · show (V2.onMouseDown2 now mx my s).editingValue = false
        unfold V2.onMouseDown2
        simp only [if_neg hgo, if_neg hstop, hpill, h1, if_true]
        repeat' split
        all_goals rfl
    · intro i b hpb
      show V2.onMouseDown2 now mx my s = _
      unfold V2.onMouseDown2
      simp only [if_neg hgo, if_neg hstop, hpb]
  · intro s now mx my he
    have hneg : ¬ (0 ≤ V1.State.editingIdx { s with editingIdx := -1, editBuffer := "" }) := by
      show ¬ ((0 : Int) ≤ -1)
      decide
    constructor
    · show V1.onMouseDown now mx my s
          = V1.onMouseDown now mx my { s with editingIdx := -1, editBuffer := "" }
      unfold V1.onMouseDown
      simp only [if_pos he, if_neg hneg]
    · intro i hi
      show (V1.onMouseDown now mx my s).workspace.get? i = s.workspace.get? i
      unfold V1.onMouseDown
      rw [if_pos he]
      dsimp only
      split
      · rw [v1_start_workspace]
      · split
        · rfl
        · split
          · exact List.get?_append hi
          · split
            · split <;> rfl
            · rfl

/-- C5 witness: with c5stateV2's pending buffer "15", a click at (270, 650)
hits no pill and is handled exactly as after `commitAndClose`, ending idle;
a click at (450, 75) lands on block 0's pill and restarts editing from its
value; in main.cpp a click at (250, 50) during c5state's edit session is
handled as on the cancelled state and keeps workspace entry 0 unchanged. -/
theorem C5_commitOnPointerDown_witness :
    (V2.handleEvent 0 (V2.Event.mouseDown 270 650) c5stateV2
        = V2.handleEvent 0 (V2.Event.mouseDown 270 650) (V2.commitAndClose c5stateV2) ∧
      (V2.handleEvent 0 (V2.Event.mouseDown 270 650) c5stateV2).editingValue = false) ∧
    V2.handleEvent 0 (V2.Event.mouseDown 450 75) c5stateV2
        = { c5stateV2 with editingValue := true, editingIdx := (0 : Int),
                           inputBuffer := toString (cxBlockV2 7).steps } ∧
    V1.handleEvent 0 (V1.Event.mouseDown 250 50) c5state
        = V1.handleEvent 0 (V1.Event.mouseDown 250 50)
            { c5state with editingIdx := -1, editBuffer := "" } ∧
    (V1.handleEvent 0 (V1.Event.mouseDown 250 50) c5state).workspace.get? 0
        = c5state.workspace.get? 0 := by
  have h2 := C5_commitOnPointerDown.1 c5stateV2 0 270 650 (by decide) (by decide) (by decide)
  have h2b := C5_commitOnPointerDown.1 c5stateV2 0 450 75 (by decide) (by decide) (by decide)
  have h1 := C5_commitOnPointerDown.2 c5state 0 250 50 (by decide)
  exact ⟨h2.1 (by decide), h2b.2 0 (cxBlockV2 7) (by decide), h1.1, h1.2 0 (by decide)⟩

/-- C6 counterexample: in main.cpp, after picking up the only workspace
block and releasing it at (800, 50) — outside the workspace region — the
workspace still has length 1: the block was not deleted, refuting that
dropping outside the workspace region strictly decreases the length. -/
theorem C6_counterexample :
    ¬ SDL_PointInRect 800 50 workspaceRegionV1 ∧
    (V1.runActs c6trace V1.initState).workspace.length = 1 ∧
    ¬ ((V1.runActs c6trace V1.initState).workspace.length = 0) := by
  refine ⟨by decide, by decide, by decide⟩

/-- C7 counterexample: in main.cpp, a palette block dropped above the only
existing block (drop y = 119, existing midpoint y = 319) ends up at the
last index, not at index 0 — there is no insertion-position scan in that
variant. -/
theorem C7_counterexample :
    (V1.runActs c7trace V1.initState).workspace.length = 2 ∧
    ((V1.runActs c7trace V1.initState).workspace.get? 0).map V1.Block.type
      = some V1.BlockType.MOVE_X ∧
    ((V1.runActs c7trace V1.initState).workspace.get? 1).map V1.Block.type
      = some V1.BlockType.LOOKS_SHOW ∧
    (119 : Int) <
      (((V1.runActs c7trace V1.initState).workspace.get? 0).getD V1.defaultBlock).rect.y +
        (((V1.runActs c7trace V1.initState).workspace.get? 0).getD V1.defaultBlock).rect.h / 2 ∧
    ¬ (((V1.runActs c7trace V1.initState).workspace.get? 0).map V1.Block.type
        = some V1.BlockType.LOOKS_SHOW) := by
  refine ⟨by decide, by decide, by decide, by decide, by decide⟩

/-- Relayout is idempotent: rectangles are a pure function of sequence
position and hat-ness, both preserved by relayout. -/
theorem layoutGo_idem (l : List V2.Block) : ∀ yy, V2.layoutGo yy (V2.layoutGo yy l) = V2.layoutGo yy l := by
  induction l with
  | nil => intro yy; rfl
  | cons b rest ih =>
    intro yy
    by_cases hb : b.isHat <;> simp [V2.layoutGo, hb, ih]

/-- Relayout keeps the sequence length. -/
theorem layoutGo_len (l : List V2.Block) : ∀ yy, (V2.layoutGo yy l).length = l.length := by
  induction l with
  | nil => intro yy; rfl
  | cons b rest ih => intro yy; simp [V2.layoutGo, ih]

/-- Erasing an in-range index removes exactly one element. -/
theorem eraseIdx_len {α : Type} (l : List α) (i : Nat) (h : i < l.length) :
    (l.eraseIdx i).length + 1 = l.length := by
  induction l generalizing i with
  | nil => simp at h
  | cons a rest ih =>
    match i with
    | 0 => simp [List.eraseIdx]
    | n+1 =>
      have := ih n (by simpa using h)
      simp only [List.eraseIdx, List.length_cons]
      omega

/-- The backward hit scan returns an in-range index. -/
theorem findHitTop2_lt (mx my : Int) (ws : List V2.Block) (i : Nat)
    (h : V2.findHitTop2 mx my ws = some i) : i < ws.length := by
  induction ws generalizing i with
  | nil => simp [V2.findHitTop2] at h
  | cons b rest ih =>
    simp only [V2.findHitTop2] at h
    cases hr : V2.findHitTop2 mx my rest with
    | some j =>
      rw [hr] at h
      have h2 : some (j + 1) = some i := h
      have hji := Option.some.inj h2
      have := ih j hr
      simp only [List.length_cons]
      omega
    | none =>
      rw [hr] at h
      have h2 : (if SDL_PointInRect mx my b.rect then some 0 else none) = some i := h
      by_cases hb : SDL_PointInRect mx my b.rect
      · rw [if_pos hb] at h2
        have h0 := Option.some.inj h2
        simp only [List.length_cons]
        omega
      · rw [if_neg hb] at h2
        cases h2

/-- Release outside the workspace strip: no insertion, drag session ends,
one relayout. -/
theorem v2_mouseup_outside (mx my : Int) (t : V2.State) (hd : t.dragging = true)
    (hout : ¬ SDL_PointInRect mx my V2.wsRect) :
    V2.onMouseUp2 mx my t
      = { t with dragging := false, dragWorkspaceIdx := -1,
                 workspace := V2.LayoutWorkspace t.workspace } := by
  unfold V2.onMouseUp2
  simp only [hd, if_true, if_neg hout]

/-- Relayout is idempotent (wrapper). -/
theorem layout_idem (l : List V2.Block) :
    V2.LayoutWorkspace (V2.LayoutWorkspace l) = V2.LayoutWorkspace l :=
  layoutGo_idem l 60

/-- Relayout keeps the length (wrapper). -/
theorem layout_len (l : List V2.Block) : (V2.LayoutWorkspace l).length = l.length :=
  layoutGo_len l 60

/-- C6 (amended): in part_000, picking a workspace block up (which erases it
at once) and releasing the pointer anywhere outside the workspace strip
leaves it deleted — the length drops by one and the block is not
re-inserted; in main.cpp the dragged block is deleted exactly when released
over the palette strip (`x < 200`), while releasing anywhere else — even
outside the workspace region, e.g. over the stage — leaves the workspace
unchanged. -/
theorem C6_dragDelete :
    (∀ (s : V2.State) (now : Nat) (mx1 my1 mx2 my2 : Int) (i : Nat),
        s.dragging = false → s.editingValue = false →
        ¬ SDL_PointInRect mx1 my1 V2.goBtn → ¬ SDL_PointInRect mx1 my1 V2.stopBtn →
        V2.findPill mx1 my1 s.workspace 0 = none →
        V2.findHit2 mx1 my1 s.palette = none →
        V2.findHitTop2 mx1 my1 s.workspace = some i →
        ¬ SDL_PointInRect mx2 my2 V2.wsRect →
        ((V2.handleEvent now (V2.Event.mouseUp mx2 my2)
            (V2.handleEvent now (V2.Event.mouseDown mx1 my1) s)).workspace
          = V2.LayoutWorkspace (s.workspace.eraseIdx i) ∧
         (V2.handleEvent now (V2.Event.mouseUp mx2 my2)
            (V2.handleEvent now (V2.Event.mouseDown mx1 my1) s)).workspace.length + 1
          = s.workspace.length ∧
         (V2.handleEvent now (V2.Event.mouseUp mx2 my2)
            (V2.handleEvent now (V2.Event.mouseDown mx1 my1) s)).dragging = false)) ∧
    (∀ (s : V1.State) (mx my : Int),
        0 ≤ s.draggingIdx → s.draggingIdx < (s.workspace.length : Int) →
        ((mx < V1.PALETTE_W →
            (V1.onMouseUp mx my s).workspace.length + 1 = s.workspace.length) ∧
         (V1.PALETTE_W ≤ mx → (V1.onMouseUp mx my s).workspace = s.workspace))) := by
  constructor
  · intro s now mx1 my1 mx2 my2 i hd he hgo hstop hpill hpal htop hout
    have h1 : V2.handleEvent now (V2.Event.mouseDown mx1 my1) s
        = { s with dragging := true, dragFromPalette := false,
                   dragWorkspaceIdx := (i : Int),
                   dragBlock := (s.workspace.get? i).getD V2.defaultBlock2,
                   dragOffX := mx1 - ((s.workspace.get? i).getD V2.defaultBlock2).rect.x,
                   dragOffY := my1 - ((s.workspace.get? i).getD V2.defaultBlock2).rect.y,
                   workspace := V2.LayoutWorkspace (s.workspace.eraseIdx i) } := by
      show V2.onMouseDown2 now mx1 my1 s = _
      unfold V2.onMouseDown2
      simp only [if_neg hgo, if_neg hstop, hpill, he, hpal, hd, if_true, htop,
        Bool.false_eq_true, if_false]
    set t := V2.handleEvent now (V2.Event.mouseDown mx1 my1) s with ht
    have htd : t.dragging = true := by rw [h1]
    have htw : t.workspace = V2.LayoutWorkspace (s.workspace.eraseIdx i) := by rw [h1]
    have hhe : V2.handleEvent now (V2.Event.mouseUp mx2 my2) t = V2.onMouseUp2 mx2 my2 t := rfl
    rw [hhe, v2_mouseup_outside mx2 my2 t htd hout]
    have hlen : i < s.workspace.length := findHitTop2_lt mx1 my1 s.workspace i htop
    refine ⟨?_, ?_, rfl⟩
    · show V2.LayoutWorkspace t.workspace = V2.LayoutWorkspace (s.workspace.eraseIdx i)
      rw [htw, layout_idem]
    · show (V2.LayoutWorkspace t.workspace).length + 1 = s.workspace.length
      rw [htw, layout_idem, layout_len]
      exact eraseIdx_len s.workspace i hlen
  · intro s mx my h0 hlt
    unfold V1.onMouseUp
    rw [if_pos h0]
    dsimp only
    constructor
    · intro hmx
      rw [if_pos hmx]
      exact eraseIdx_len s.workspace s.draggingIdx.toNat (by omega)
    · intro hmx
      rw [if_neg (by omega)]

/-- C6 witness: deleting the only block of a part_000 workspace by dragging
it out and releasing over the stage. -/
theorem C6_dragDelete_witness :
    c6stateV2.dragging = false ∧
    V2.findHitTop2 300 70 c6stateV2.workspace = some 0 ∧
    ¬ SDL_PointInRect 100 70 V2.wsRect ∧
    (V2.handleEvent 0 (V2.Event.mouseUp 100 70)
        (V2.handleEvent 0 (V2.Event.mouseDown 300 70) c6stateV2)).workspace.length + 1
      = c6stateV2.workspace.length := by
  refine ⟨by decide, by decide, by decide, ?_⟩
  exact (C6_dragDelete.1 c6stateV2 0 300 70 100 70 0 (by decide) (by decide) (by decide)
    (by decide) (by decide) (by decide) (by decide) (by decide)).2.1

/-- C7 (amended): in part_000 a drop inside the workspace strip inserts the
dragged block at the index found by the top-to-bottom midpoint scan — the
first block whose vertical midpoint lies below the drop y, or the end when
none qualifies — so a drop above all blocks lands at index 0; main.cpp has
no such scan: a palette pick-up appends the copy at the end immediately and
the drop position never changes its sequence index. -/
theorem C7_insertion :
    (∀ (s : V2.State) (now : Nat) (mx my : Int),
        s.dragging = true → SDL_PointInRect mx my V2.wsRect →
        (V2.handleEvent now (V2.Event.mouseUp mx my) s).workspace
          = V2.LayoutWorkspace
              (V2.insertAt s.workspace (V2.insertPos my s.workspace) s.dragBlock)) ∧
    (∀ (my : Int) (ws : List V2.Block), V2.insertPos my ws = specInsertIdx my ws) ∧
    (∀ (my : Int) (b : V2.Block) (rest : List V2.Block),
        my < b.rect.y + b.rect.h / 2 → V2.insertPos my (b :: rest) = 0) ∧
    (∀ (ws : List V2.Block) (b : V2.Block), V2.insertAt ws 0 b = b :: ws) := by
  refine ⟨?_, ?_, ?_, ?_⟩
  · intro s now mx my hd hin
    show (V2.onMouseUp2 mx my s).workspace = _
    unfold V2.onMouseUp2
    simp only [hd, if_pos hin, if_true]
  · intro my ws
    induction ws with
    | nil => rfl
    | cons b rest ih =>
      by_cases hc : my < b.rect.y + b.rect.h / 2
      · simp [V2.insertPos, specInsertIdx, List.findIdx_cons, hc]
      · simp [V2.insertPos, specInsertIdx, List.findIdx_cons, hc, ih]
  · intro my b rest h
    simp [V2.insertPos, h]
  · intro ws b
    cases ws <;> rfl

/-- C7 witness: dropping a dragged `Change X 99` at y = 20, above the
midpoint of the only laid-out block, makes it the new element at index 0. -/
theorem C7_insertion_witness :
    c7stateV2.dragging = true ∧
    SDL_PointInRect 300 20 V2.wsRect ∧
    (V2.handleEvent 0 (V2.Event.mouseUp 300 20) c7stateV2).workspace.map V2.Block.steps
      = [99, 10] := by
  refine ⟨by decide, by decide, ?_⟩
  have h := C7_insertion.1 c7stateV2 0 300 20 (by decide) (by decide)
  rw [h]
  decide

/-- The main.cpp effect switch only moves the sprite. -/
theorem v1_applyEffect_ctrl (b : V1.Block) (s : V1.State) :
    (V1.applyEffect b s).workspace = s.workspace ∧
    (V1.applyEffect b s).scriptStep = s.scriptStep ∧
    (V1.applyEffect b s).running = s.running ∧
    (V1.applyEffect b s).lastStepTime = s.lastStepTime := by
  unfold V1.applyEffect
  split <;> exact ⟨rfl, rfl, rfl, rfl⟩

/-- Case analysis of one main.cpp tick: a gated tick advances the step by
one, re-anchors the delay and keeps the running flag; any other tick keeps
the step and can clear the running flag only when it was already clear or
the step had reached the length; a stopped engine is inert. -/
theorem v1_tick_cases (now : Int) (s : V1.State) :
    (V1.UpdateScript now s).workspace = s.workspace ∧
    (V1.gatedTick now s →
      (V1.UpdateScript now s).scriptStep = s.scriptStep + 1 ∧
      (V1.UpdateScript now s).lastStepTime = now ∧
      (V1.UpdateScript now s).running = s.running) ∧
    (¬ V1.gatedTick now s →
      (V1.UpdateScript now s).scriptStep = s.scriptStep ∧
      ((V1.UpdateScript now s).running = false →
        s.running = false ∨ (s.workspace.length : Int) ≤ s.scriptStep)) ∧
    (s.running = false → V1.UpdateScript now s = s) := by
  unfold V1.UpdateScript
  by_cases h1 : s.running = false
  · rw [if_pos h1]
    refine ⟨rfl, ?_, fun _ => ⟨rfl, fun _ => Or.inl h1⟩, fun _ => rfl⟩
    intro hg
    exact absurd hg.1 (by simp [h1])
  · rw [if_neg h1]
    have hrun : s.running = true := by
      revert h1
      cases s.running <;> simp
    by_cases h2 : (s.workspace.length : Int) ≤ s.scriptStep
    · rw [if_pos h2]
      refine ⟨rfl, ?_, fun _ => ⟨rfl, fun _ => Or.inr h2⟩, fun hv => absurd hv h1⟩
      intro hg
      exact absurd h2 (not_le.mpr hg.2.1)
    · rw [if_neg h2]
      by_cases h3 : now - s.lastStepTime < 400
      · rw [if_pos h3]
        refine ⟨rfl, ?_, fun _ => ⟨rfl, fun hf => absurd hf h1⟩, fun hv => absurd hv h1⟩
        intro hg
        exact absurd h3 (not_lt.mpr hg.2.2)
      · rw [if_neg h3]
        dsimp only
        have hg : V1.gatedTick now s := ⟨hrun, by omega, by omega⟩
        refine ⟨?_, fun _ => ⟨rfl, ?_, ?_⟩, fun hng => absurd hg hng, fun hv => absurd hv h1⟩
        · rw [(v1_applyEffect_ctrl _ _).1]
        · rw [(v1_applyEffect_ctrl _ _).2.2.2]
        · rw [(v1_applyEffect_ctrl _ _).2.2.1]

/-- The part_000 effect switch only moves the sprite. -/
theorem v2_applyEffect_ctrl (b : V2.Block) (s : V2.State) :
    (V2.applyEffect2 b s).workspace = s.workspace ∧
    (V2.applyEffect2 b s).scriptStep = s.scriptStep ∧
    (V2.applyEffect2 b s).scriptRunning = s.scriptRunning ∧
    (V2.applyEffect2 b s).lastStepTime = s.lastStepTime := by
  unfold V2.applyEffect2
  split <;> exact ⟨rfl, rfl, rfl, rfl⟩

/-- Case analysis of one part_000 tick: a gated tick advances the step,
re-anchors the delay, and clears the running flag exactly when the new step
reaches the length; any other tick keeps the step; a stopped engine is
inert. -/
theorem v2_tick_cases (now : Nat) (s : V2.State) :
    (V2.UpdateScript now s).workspace = s.workspace ∧
    (V2.gatedTick2 now s →
      (V2.UpdateScript now s).scriptStep = s.scriptStep + 1 ∧
      (V2.UpdateScript now s).lastStepTime = now ∧
      ((V2.UpdateScript now s).scriptRunning = false ↔
        (s.workspace.length : Int) ≤ s.scriptStep + 1)) ∧
    (¬ V2.gatedTick2 now s →
      (V2.UpdateScript now s).scriptStep = s.scriptStep ∧
      ((V2.UpdateScript now s).scriptRunning = false →
        s.scriptRunning = false ∨ (s.workspace.length : Int) ≤ s.scriptStep)) ∧
    (s.scriptRunning = false → V2.UpdateScript now s = s) := by
  unfold V2.UpdateScript
  by_cases h1 : s.scriptRunning = false
  · rw [if_pos h1]
    refine ⟨rfl, ?_, fun _ => ⟨rfl, fun _ => Or.inl h1⟩, fun _ => rfl⟩
    intro hg
    exact absurd hg.1 (by simp [h1])
  · rw [if_neg h1]
    have hrun : s.scriptRunning = true := by
      revert h1
      cases s.scriptRunning <;> simp
    by_cases h2 : (s.workspace.length : Int) ≤ s.scriptStep
    · rw [if_pos h2]
      refine ⟨rfl, ?_, fun _ => ⟨rfl, fun _ => Or.inr h2⟩, fun hv => absurd hv h1⟩
      intro hg
      exact absurd h2 (not_le.mpr hg.2.1)
    · rw [if_neg h2]
      by_cases h3 : V2.u32sub now s.lastStepTime < 400
      · rw [if_pos h3]
        refine ⟨rfl, ?_, fun _ => ⟨rfl, fun hf => absurd hf h1⟩, fun hv => absurd hv h1⟩
        intro hg
        exact absurd h3 (not_lt.mpr hg.2.2)
      · rw [if_neg h3]
        dsimp only
        have hg : V2.gatedTick2 now s := ⟨hrun, by omega, by omega⟩
        by_cases h4 : (s.workspace.length : Int) ≤ s.scriptStep + 1
        · rw [if_pos h4]
          refine ⟨?_, fun _ => ⟨rfl, ?_, by simp [h4]⟩,
            fun hng => absurd hg hng, fun hv => absurd hv h1⟩
          · rw [(v2_applyEffect_ctrl _ _).1]
          · rw [(v2_applyEffect_ctrl _ _).2.2.2]
        · rw [if_neg h4]
          refine ⟨?_, fun _ => ⟨rfl, ?_, ?_⟩,
            fun hng => absurd hg hng, fun hv => absurd hv h1⟩
          · rw [(v2_applyEffect_ctrl _ _).1]
          · rw [(v2_applyEffect_ctrl _ _).2.2.2]
          · rw [(v2_applyEffect_ctrl _ _).2.2.1]
            simp [hrun, h4]

/-- `StartScript` fields in main.cpp when a flag block exists. -/
theorem v1_start_fields (now : Int) (s : V1.State) (k : Nat)
    (h : V1.findFlag s.workspace = some k) :
    (V1.StartScript now s).running = true ∧
    (V1.StartScript now s).scriptStep = (k : Int) + 1 ∧
    (V1.StartScript now s).lastStepTime = now ∧
    (V1.StartScript now s).workspace = s.workspace := by
  unfold V1.StartScript
  rw [h]
  exact ⟨rfl, rfl, rfl, rfl⟩

/-- `StartScript` fields in part_000: always running, step 0 or 1, and step
1 only on a non-empty workspace. -/
theorem v2_start_fields (now : Nat) (s : V2.State) :
    (V2.StartScript now s).scriptRunning = true ∧
    (V2.StartScript now s).lastStepTime = now ∧
    (V2.StartScript now s).workspace = s.workspace ∧
    ((V2.StartScript now s).scriptStep = 0 ∨ (V2.StartScript now s).scriptStep = 1) ∧
    ((V2.StartScript now s).scriptStep = 1 → s.workspace ≠ []) := by
  unfold V2.StartScript
  cases hw : s.workspace with
  | nil => simp
  | cons b rest =>
    by_cases hb : b.type = V2.BlockType.EVENT_FLAG <;> simp [hb, hw]

/-- A start in main.cpp never makes the step negative. -/
theorem v1_start_step_nonneg (now : Int) (s : V1.State) (h : 0 ≤ s.scriptStep) :
    0 ≤ (V1.StartScript now s).scriptStep := by
  cases hf : V1.findFlag s.workspace with
  | some k =>
    rw [(v1_start_fields now s k hf).2.1]
    omega
  | none =>
    unfold V1.StartScript
    rw [hf]
    exact h

/-- A start in part_000 never makes the step negative. -/
theorem v2_start_step_nonneg (now : Nat) (s : V2.State) :
    0 ≤ (V2.StartScript now s).scriptStep := by
  rcases (v2_start_fields now s).2.2.2.1 with h | h <;> rw [h] <;> decide

/-- Committing a value keeps the engine's step. -/
theorem v2_cac_step (s : V2.State) : (V2.commitAndClose s).scriptStep = s.scriptStep := by
  rw [show (V2.commitAndClose s).scriptStep = (V2.commitSteps s).scriptStep from rfl]
  unfold V2.commitSteps
  split <;> rfl

/-- No main.cpp event handler can make the step negative. -/
theorem v1_handle_step_nonneg (now : Int) (e : V1.Event) (s : V1.State)
    (h : 0 ≤ s.scriptStep) : 0 ≤ (V1.handleEvent now e s).scriptStep := by
  cases e with
  | textInput ch =>
    show 0 ≤ (V1.onTextInput ch s).scriptStep
    unfold V1.onTextInput
    repeat' split
    all_goals exact h
  | keyDown key =>
    show 0 ≤ (V1.onKeyDown now key s).scriptStep
    unfold V1.onKeyDown
    repeat' split
    all_goals first
      | exact h
      | (apply v1_start_step_nonneg; exact h)
  | mouseDown mx my =>
    show 0 ≤ (V1.onMouseDown now mx my s).scriptStep
    unfold V1.onMouseDown
    dsimp only
    repeat' split
    all_goals first
      | exact h
      | (apply v1_start_step_nonneg; exact h)
  | mouseMotion mx my =>
    show 0 ≤ (V1.onMouseMotion mx my s).scriptStep
    unfold V1.onMouseMotion
    repeat' split
    all_goals exact h
  | mouseUp mx my =>
    show 0 ≤ (V1.onMouseUp mx my s).scriptStep
    unfold V1.onMouseUp
    repeat' split
    all_goals exact h
  | wheel wy mx my =>
    show 0 ≤ (V1.onWheel wy mx my s).scriptStep
    unfold V1.onWheel
    repeat' split
    all_goals exact h

/-- No part_000 event handler can make the step negative. -/
theorem v2_handle_step_nonneg (now : Nat) (e : V2.Event) (s : V2.State)
    (h : 0 ≤ s.scriptStep) : 0 ≤ (V2.handleEvent now e s).scriptStep := by
  cases e with
  | textInput txt =>
    show 0 ≤ (V2.onTextInput2 txt s).scriptStep
    unfold V2.onTextInput2
    repeat' split
    all_goals exact h
  | keyDown key =>
    show 0 ≤ (V2.onKeyDown2 key s).scriptStep
    unfold V2.onKeyDown2
    repeat' split
    all_goals first
      | exact h
      | (simp only [v2_cac_step]; exact h)
  | mouseDown mx my =>
    show 0 ≤ (V2.onMouseDown2 now mx my s).scriptStep
    unfold V2.onMouseDown2
    dsimp only
    repeat' split
    all_goals first
      | exact h
      | (apply v2_start_step_nonneg)
      | (simp only [v2_cac_step]; exact h)
  | mouseMotion mx my =>
    show 0 ≤ (V2.onMouseMotion2 mx my s).scriptStep
    unfold V2.onMouseMotion2
    repeat' split
    all_goals exact h
  | mouseUp mx my =>
    show 0 ≤ (V2.onMouseUp2 mx my s).scriptStep
    unfold V2.onMouseUp2
    repeat' split
    all_goals exact h

/-- No main.cpp interleaving atom can make the step negative. -/
theorem v1_step_nonneg (a : V1.Action) (s : V1.State) (h : 0 ≤ s.scriptStep) :
    0 ≤ (V1.stepA a s).scriptStep := by
  cases a with
  | ev now e => exact v1_handle_step_nonneg now e s h
  | tick now =>
    show 0 ≤ (V1.UpdateScript now s).scriptStep
    by_cases g : V1.gatedTick now s
    · rw [((v1_tick_cases now s).2.1 g).1]
      omega
    · rw [((v1_tick_cases now s).2.2.1 g).1]
      exact h

/-- No part_000 interleaving atom can make the step negative. -/
theorem v2_step_nonneg (a : V2.Action) (s : V2.State) (h : 0 ≤ s.scriptStep) :
    0 ≤ (V2.stepA a s).scriptStep := by
  cases a with
  | ev now e => exact v2_handle_step_nonneg now e s h
  | tick now =>
    show 0 ≤ (V2.UpdateScript now s).scriptStep
    by_cases g : V2.gatedTick2 now s
    · rw [((v2_tick_cases now s).2.1 g).1]
      omega
    · rw [((v2_tick_cases now s).2.2.1 g).1]
      exact h

/-- The step never goes negative along any main.cpp run. -/
theorem v1_runActs_nonneg (acts : List V1.Action) (s : V1.State) (h : 0 ≤ s.scriptStep) :
    0 ≤ (V1.runActs acts s).scriptStep := by
  induction acts generalizing s with
  | nil => exact h
  | cons a rest ih => exact ih (V1.stepA a s) (v1_step_nonneg a s h)

/-- The step never goes negative along any part_000 run. -/
theorem v2_runActs_nonneg (acts : List V2.Action) (s : V2.State) (h : 0 ≤ s.scriptStep) :
    0 ≤ (V2.runActs acts s).scriptStep := by
  induction acts generalizing s with
  | nil => exact h
  | cons a rest ih => exact ih (V2.stepA a s) (v2_step_nonneg a s h)

/-- A main.cpp tick entered at or past the end clears the running flag, and
a tick that leaves the engine running leaves the step within bounds. -/
theorem v1_tick_restores (now : Int) (s : V1.State) :
    ((s.workspace.length : Int) ≤ s.scriptStep → (V1.UpdateScript now s).running = false) ∧
    ((V1.UpdateScript now s).running = true →
      (V1.UpdateScript now s).scriptStep ≤ ((V1.UpdateScript now s).workspace.length : Int)) := by
  unfold V1.UpdateScript
  by_cases h1 : s.running = false
  · rw [if_pos h1]
    exact ⟨fun _ => h1, fun hr => absurd hr (by simp [h1])⟩
  · rw [if_neg h1]
    by_cases h2 : (s.workspace.length : Int) ≤ s.scriptStep
    · rw [if_pos h2]
      refine ⟨fun _ => rfl, fun hr => ?_⟩
      exact absurd hr (by simp)
    · rw [if_neg h2]
      by_cases h3 : now - s.lastStepTime < 400
      · rw [if_pos h3]
        exact ⟨fun hc => absurd hc h2, fun _ => by omega⟩
      · rw [if_neg h3]
        dsimp only
        refine ⟨fun hc => absurd hc h2, fun _ => ?_⟩
        rw [(v1_applyEffect_ctrl _ _).1]
        show s.scriptStep + 1 ≤ (s.workspace.length : Int)
        omega

/-- A part_000 tick entered at or past the end clears the running flag, and
a tick that leaves the engine running leaves the step within bounds. -/
theorem v2_tick_restores (now : Nat) (s : V2.State) :
    ((s.workspace.length : Int) ≤ s.scriptStep →
      (V2.UpdateScript now s).scriptRunning = false) ∧
    ((V2.UpdateScript now s).scriptRunning = true →
      (V2.UpdateScript now s).scriptStep ≤ ((V2.UpdateScript now s).workspace.length : Int)) := by
  unfold V2.UpdateScript
  by_cases h1 : s.scriptRunning = false
  · rw [if_pos h1]
    exact ⟨fun _ => h1, fun hr => absurd hr (by simp [h1])⟩
  · rw [if_neg h1]
    by_cases h2 : (s.workspace.length : Int) ≤ s.scriptStep
    · rw [if_pos h2]
      refine ⟨fun _ => rfl, fun hr => ?_⟩
      exact absurd hr (by simp)
    · rw [if_neg h2]
      by_cases h3 : V2.u32sub now s.lastStepTime < 400
      · rw [if_pos h3]
        exact ⟨fun hc => absurd hc h2, fun _ => by omega⟩
      · rw [if_neg h3]
        dsimp only
        by_cases h4 : (s.workspace.length : Int) ≤ s.scriptStep + 1
        · rw [if_pos h4]
          refine ⟨fun hc => absurd hc h2, fun hr => ?_⟩
          exact absurd hr (by simp)
        · rw [if_neg h4]
          refine ⟨fun hc => absurd hc h2, fun _ => ?_⟩
          rw [(v2_applyEffect_ctrl _ _).1]
          show s.scriptStep + 1 ≤ (s.workspace.length : Int)
          omega

/-- C4 (amended): in both variants, in every state reachable from start-up
by any interleaving of input events and engine ticks, running implies
0 ≤ currentStep; the upper bound currentStep ≤ len(workspace) can be
transiently violated by a structural removal performed while the script is
running, but any engine tick restores it — a tick entered with currentStep
at or past len(workspace) sets running to false, and after any tick running
implies currentStep ≤ len(workspace). -/
theorem C4_invariant :
    (∀ acts : List V1.Action, 0 ≤ (V1.runActs acts V1.initState).scriptStep) ∧
    (∀ acts : List V2.Action, 0 ≤ (V2.runActs acts V2.initState).scriptStep) ∧
    (∀ (now : Int) (s : V1.State),
        ((s.workspace.length : Int) ≤ s.scriptStep →
          (V1.UpdateScript now s).running = false) ∧
        ((V1.UpdateScript now s).running = true →
          (V1.UpdateScript now s).scriptStep
            ≤ ((V1.UpdateScript now s).workspace.length : Int))) ∧
    (∀ (now : Nat) (s : V2.State),
        ((s.workspace.length : Int) ≤ s.scriptStep →
          (V2.UpdateScript now s).scriptRunning = false) ∧
        ((V2.UpdateScript now s).scriptRunning = true →
          (V2.UpdateScript now s).scriptStep
            ≤ ((V2.UpdateScript now s).workspace.length : Int))) :=
  ⟨fun acts => v1_runActs_nonneg acts V1.initState (by decide),
   fun acts => v2_runActs_nonneg acts V2.initState (by decide),
   v1_tick_restores, v2_tick_restores⟩

/-- C4 witness: a run that ends with the step past the length, and the
next tick restoring the invariant by stopping the engine. -/
theorem C4_invariant_witness :
    0 ≤ (V1.runActs c6trace V1.initState).scriptStep ∧
    ((V2.runActs c4trace V2.initState).workspace.length : Int)
      ≤ (V2.runActs c4trace V2.initState).scriptStep ∧
    (V2.UpdateScript 2000 (V2.runActs c4trace V2.initState)).scriptRunning = false := by
  refine ⟨C4_invariant.1 c6trace, by decide, ?_⟩
  exact (C4_invariant.2.2.2 2000 (V2.runActs c4trace V2.initState)).1 (by decide)

/-- C4 counterexample: drag the flag block into the part_000 workspace,
press GO (running, step 1), then pick the flag block up while running: the
workspace is now empty but running is still true with step 1 — the claimed
invariant `running → currentStep ≤ len(workspace)` does not survive the
removal. -/
theorem C4_counterexample :
    (V2.runActs c4trace V2.initState).scriptRunning = true ∧
    (V2.runActs c4trace V2.initState).scriptStep = 1 ∧
    (V2.runActs c4trace V2.initState).workspace.length = 0 ∧
    ¬ ((V2.runActs c4trace V2.initState).scriptStep
        ≤ ((V2.runActs c4trace V2.initState).workspace.length : Int)) := by
  refine ⟨by decide, by decide, by decide, by decide⟩

/-- Along any main.cpp tick sequence: the workspace never changes, the step
advances by exactly the number of gated ticks, the running flag can only
fall at or past the end, and the step stays within bounds. -/
theorem v1_run_spec (ts : List Int) (s : V1.State) :
    (V1.runTicks ts s).workspace = s.workspace ∧
    ((V1.runTicks ts s).scriptStep = s.scriptStep + (V1.gatedCount ts s : Int)) ∧
    ((V1.runTicks ts s).running = false →
      s.running = false ∨ (s.workspace.length : Int) ≤ (V1.runTicks ts s).scriptStep) ∧
    (s.scriptStep ≤ (s.workspace.length : Int) →
      (V1.runTicks ts s).scriptStep ≤ (s.workspace.length : Int)) := by
  induction ts generalizing s with
  | nil =>
    exact ⟨rfl, by simp [V1.gatedCount, V1.runTicks], fun h => Or.inl h, fun h => h⟩
  | cons t rest ih =>
    have tc := v1_tick_cases t s
    have ihs := ih (V1.UpdateScript t s)
    have hws : (V1.runTicks rest (V1.UpdateScript t s)).workspace = s.workspace := by
      rw [ihs.1, tc.1]
    have hstep1 : (V1.UpdateScript t s).scriptStep
        = s.scriptStep + (if V1.gatedTick t s then (1 : Int) else 0) := by
      by_cases g : V1.gatedTick t s
      · rw [if_pos g, (tc.2.1 g).1]
      · rw [if_neg g, (tc.2.2.1 g).1]
        ring
    refine ⟨hws, ?_, ?_, ?_⟩
    · show (V1.runTicks rest (V1.UpdateScript t s)).scriptStep
        = s.scriptStep + (V1.gatedCount (t :: rest) s : Int)
      rw [ihs.2.1, hstep1]
      show _ = s.scriptStep
        + (((if V1.gatedTick t s then 1 else 0)
            + V1.gatedCount rest (V1.UpdateScript t s) : Nat) : Int)
      by_cases g : V1.gatedTick t s
      · rw [if_pos g, if_pos g]
        push_cast
        ring
      · rw [if_neg g, if_neg g]
        push_cast
        ring
    · intro hf
      show s.running = false
        ∨ (s.workspace.length : Int) ≤ (V1.runTicks rest (V1.UpdateScript t s)).scriptStep
      rcases ihs.2.2.1 hf with hr1 | hlen
      · by_cases g : V1.gatedTick t s
        · left
          rw [← (tc.2.1 g).2.2]
          exact hr1
        · rcases (tc.2.2.1 g).2 hr1 with h | h
          · exact Or.inl h
          · right
            have h2 := ihs.2.1
            rw [(tc.2.2.1 g).1] at h2
            omega
      · right
        rw [tc.1] at hlen
        exact hlen
    · intro hb
      show (V1.runTicks rest (V1.UpdateScript t s)).scriptStep ≤ (s.workspace.length : Int)
      have hs1b : (V1.UpdateScript t s).scriptStep ≤ (s.workspace.length : Int) := by
        by_cases g : V1.gatedTick t s
        · rw [(tc.2.1 g).1]
          have := g.2.1
          omega
        · rw [(tc.2.2.1 g).1]
          exact hb
      have hbd := ihs.2.2.2
      rw [tc.1] at hbd
      exact hbd hs1b

/-- Along any part_000 tick sequence: the workspace never changes, the step
advances by exactly the number of gated ticks, the running flag can only
fall at or past the end, and the step stays within bounds. -/
theorem v2_run_spec (ts : List Nat) (s : V2.State) :
    (V2.runTicks2 ts s).workspace = s.workspace ∧
    ((V2.runTicks2 ts s).scriptStep = s.scriptStep + (V2.gatedCount2 ts s : Int)) ∧
    ((V2.runTicks2 ts s).scriptRunning = false →
      s.scriptRunning = false ∨
        (s.workspace.length : Int) ≤ (V2.runTicks2 ts s).scriptStep) ∧
    (s.scriptStep ≤ (s.workspace.length : Int) →
      (V2.runTicks2 ts s).scriptStep ≤ (s.workspace.length : Int)) := by
  induction ts generalizing s with
  | nil =>
    exact ⟨rfl, by simp [V2.gatedCount2, V2.runTicks2], fun h => Or.inl h, fun h => h⟩
  | cons t rest ih =>
    have tc := v2_tick_cases t s
    have ihs := ih (V2.UpdateScript t s)
    have hws : (V2.runTicks2 rest (V2.UpdateScript t s)).workspace = s.workspace := by
      rw [ihs.1, tc.1]
    have hstep1 : (V2.UpdateScript t s).scriptStep
        = s.scriptStep + (if V2.gatedTick2 t s then (1 : Int) else 0) := by
      by_cases g : V2.gatedTick2 t s
      · rw [if_pos g, (tc.2.1 g).1]
      · rw [if_neg g, (tc.2.2.1 g).1]
        ring
    refine ⟨hws, ?_, ?_, ?_⟩
    · show (V2.runTicks2 rest (V2.UpdateScript t s)).scriptStep
        = s.scriptStep + (V2.gatedCount2 (t :: rest) s : Int)
      rw [ihs.2.1, hstep1]
      show _ = s.scriptStep
        + (((if V2.gatedTick2 t s then 1 else 0)
            + V2.gatedCount2 rest (V2.UpdateScript t s) : Nat) : Int)
      by_cases g : V2.gatedTick2 t s
      · rw [if_pos g, if_pos g]
        push_cast
        ring
      · rw [if_neg g, if_neg g]
        push_cast
        ring
    · intro hf
      show s.scriptRunning = false
        ∨ (s.workspace.length : Int) ≤ (V2.runTicks2 rest (V2.UpdateScript t s)).scriptStep
      rcases ihs.2.2.1 hf with hr1 | hlen
      · by_cases g : V2.gatedTick2 t s
        · right
          have hlen2 : (s.workspace.length : Int) ≤ s.scriptStep + 1 := ((tc.2.1 g).2.2).mp hr1
          have h2 := ihs.2.1
          rw [(tc.2.1 g).1] at h2
          omega
        · rcases (tc.2.2.1 g).2 hr1 with h | h
          · exact Or.inl h
          · right
            have h2 := ihs.2.1
            rw [(tc.2.2.1 g).1] at h2
            omega
      · right
        rw [tc.1] at hlen
        exact hlen
    · intro hb
      show (V2.runTicks2 rest (V2.UpdateScript t s)).scriptStep ≤ (s.workspace.length : Int)
      have hs1b : (V2.UpdateScript t s).scriptStep ≤ (s.workspace.length : Int) := by
        by_cases g : V2.gatedTick2 t s
        · rw [(tc.2.1 g).1]
          have := g.2.1
          omega
        · rw [(tc.2.2.1 g).1]
          exact hb
      have hbd := ihs.2.2.2
      rw [tc.1] at hbd
      exact hbd hs1b

/-- Running two tick sequences in a row composes. -/
theorem v1_runTicks_append (ts1 ts2 : List Int) (s : V1.State) :
    V1.runTicks (ts1 ++ ts2) s = V1.runTicks ts2 (V1.runTicks ts1 s) := by
  induction ts1 generalizing s with
  | nil => rfl
  | cons t rest ih => exact ih (V1.UpdateScript t s)

/-- The gated-tick count over two sequences in a row adds up. -/
theorem v1_count_append (ts1 ts2 : List Int) (s : V1.State) :
    V1.gatedCount (ts1 ++ ts2) s
      = V1.gatedCount ts1 s + V1.gatedCount ts2 (V1.runTicks ts1 s) := by
  induction ts1 generalizing s with
  | nil => simp [V1.gatedCount, V1.runTicks]
  | cons t rest ih =>
    show (if V1.gatedTick t s then 1 else 0) + V1.gatedCount (rest ++ ts2) (V1.UpdateScript t s)
      = ((if V1.gatedTick t s then 1 else 0) + V1.gatedCount rest (V1.UpdateScript t s))
        + V1.gatedCount ts2 (V1.runTicks rest (V1.UpdateScript t s))
    rw [ih]
    omega

/-- Running two tick sequences in a row composes. -/
theorem v2_runTicks_append (ts1 ts2 : List Nat) (s : V2.State) :
    V2.runTicks2 (ts1 ++ ts2) s = V2.runTicks2 ts2 (V2.runTicks2 ts1 s) := by
  induction ts1 generalizing s with
  | nil => rfl
  | cons t rest ih => exact ih (V2.UpdateScript t s)

/-- The gated-tick count over two sequences in a row adds up. -/
theorem v2_count_append (ts1 ts2 : List Nat) (s : V2.State) :
    V2.gatedCount2 (ts1 ++ ts2) s
      = V2.gatedCount2 ts1 s + V2.gatedCount2 ts2 (V2.runTicks2 ts1 s) := by
  induction ts1 generalizing s with
  | nil => simp [V2.gatedCount2, V2.runTicks2]
  | cons t rest ih =>
    show (if V2.gatedTick2 t s then 1 else 0)
        + V2.gatedCount2 (rest ++ ts2) (V2.UpdateScript t s)
      = ((if V2.gatedTick2 t s then 1 else 0) + V2.gatedCount2 rest (V2.UpdateScript t s))
        + V2.gatedCount2 ts2 (V2.runTicks2 rest (V2.UpdateScript t s))
    rw [ih]
    omega

/-- On the 400-spaced schedule, a running main.cpp engine with n blocks left
performs exactly n gated ticks, landing on the length with running still
true (main.cpp only clears the flag on the next tick call). -/
theorem v1_sched_run (n : Nat) : ∀ (s : V1.State), s.running = true →
    s.scriptStep + (n : Int) = (s.workspace.length : Int) →
    (V1.runTicks (V1.sched s.lastStepTime n) s).running = true ∧
    (V1.runTicks (V1.sched s.lastStepTime n) s).scriptStep = (s.workspace.length : Int) ∧
    (V1.runTicks (V1.sched s.lastStepTime n) s).workspace = s.workspace ∧
    V1.gatedCount (V1.sched s.lastStepTime n) s = n := by
  induction n with
  | zero =>
    intro s hr hstep
    refine ⟨hr, ?_, rfl, rfl⟩
    show s.scriptStep = (s.workspace.length : Int)
    omega
  | succ n ih =>
    intro s hr hstep
    have hg : V1.gatedTick (s.lastStepTime + 400) s := ⟨hr, by omega, by omega⟩
    have tc := v1_tick_cases (s.lastStepTime + 400) s
    have h1 := tc.2.1 hg
    set s1 := V1.UpdateScript (s.lastStepTime + 400) s with hs1
    have ihs := ih s1 (by rw [h1.2.2]; exact hr)
      (by rw [h1.1, tc.1]; push_cast at hstep ⊢; omega)
    refine ⟨?_, ?_, ?_, ?_⟩
    · show (V1.runTicks (V1.sched (s.lastStepTime + 400) n) s1).running = true
      rw [← h1.2.1]
      exact ihs.1
    · show (V1.runTicks (V1.sched (s.lastStepTime + 400) n) s1).scriptStep
        = (s.workspace.length : Int)
      rw [← h1.2.1, ihs.2.1, tc.1]
    · show (V1.runTicks (V1.sched (s.lastStepTime + 400) n) s1).workspace = s.workspace
      rw [← h1.2.1, ihs.2.2.1, tc.1]
    · show (if V1.gatedTick (s.lastStepTime + 400) s then 1 else 0)
        + V1.gatedCount (V1.sched (s.lastStepTime + 400) n) s1 = n + 1
      rw [if_pos hg, ← h1.2.1, ihs.2.2.2]
      omega

/-- On the 400-spaced schedule (within the 32-bit tick budget), a running
part_000 engine with n blocks left performs exactly n gated ticks; when
n > 0 the last gated tick also clears the running flag. -/
theorem v2_sched_run (n : Nat) : ∀ (s : V2.State), s.scriptRunning = true →
    s.scriptStep + (n : Int) = (s.workspace.length : Int) →
    s.lastStepTime + 400 * n < 4294967296 →
    (V2.runTicks2 (V2.sched2 s.lastStepTime n) s).scriptStep = (s.workspace.length : Int) ∧
    (V2.runTicks2 (V2.sched2 s.lastStepTime n) s).workspace = s.workspace ∧
    V2.gatedCount2 (V2.sched2 s.lastStepTime n) s = n ∧
    (0 < n → (V2.runTicks2 (V2.sched2 s.lastStepTime n) s).scriptRunning = false) ∧
    (n = 0 → V2.runTicks2 (V2.sched2 s.lastStepTime n) s = s) := by
  induction n with
  | zero =>
    intro s hr hstep hbud
    refine ⟨?_, rfl, rfl, by omega, fun _ => rfl⟩
    show s.scriptStep = (s.workspace.length : Int)
    omega
  | succ n ih =>
    intro s hr hstep hbud
    have hlast : s.lastStepTime < 4294967296 := by omega
    have hgate : 400 ≤ V2.u32sub (s.lastStepTime + 400) s.lastStepTime := by
      unfold V2.u32sub
      rw [Nat.mod_eq_of_lt hlast]
      have heq : s.lastStepTime + 400 + 4294967296 - s.lastStepTime = 400 + 4294967296 := by
        omega
      rw [heq, Nat.add_mod_right]
    have hg : V2.gatedTick2 (s.lastStepTime + 400) s := ⟨hr, by omega, hgate⟩
    have tc := v2_tick_cases (s.lastStepTime + 400) s
    have h1 := tc.2.1 hg
    set s1 := V2.UpdateScript (s.lastStepTime + 400) s with hs1
    by_cases hn : n = 0
    · subst hn
      refine ⟨?_, ?_, ?_, ?_, by omega⟩
      · show s1.scriptStep = (s.workspace.length : Int)
        rw [h1.1]
        omega
      · show s1.workspace = s.workspace
        exact tc.1
      · show (if V2.gatedTick2 (s.lastStepTime + 400) s then 1 else 0)
          + V2.gatedCount2 (V2.sched2 (s.lastStepTime + 400) 0) s1 = 1
        rw [if_pos hg]
        rfl
      · intro _
        show s1.scriptRunning = false
        exact (h1.2.2).mpr (by omega)
    · have hrun1 : s1.scriptRunning = true := by
        have hnle : ¬ ((s.workspace.length : Int) ≤ s.scriptStep + 1) := by
          push_cast at hstep
          omega
        cases hx : s1.scriptRunning
        · exact absurd ((h1.2.2).mp hx) hnle
        · rfl
      have ihs := ih s1 hrun1
        (by rw [h1.1, tc.1]; push_cast at hstep ⊢; omega)
        (by rw [h1.2.1]; omega)
      refine ⟨?_, ?_, ?_, ?_, by omega⟩
      · show (V2.runTicks2 (V2.sched2 (s.lastStepTime + 400) n) s1).scriptStep
          = (s.workspace.length : Int)
        rw [← h1.2.1, ihs.1, tc.1]
      · show (V2.runTicks2 (V2.sched2 (s.lastStepTime + 400) n) s1).workspace = s.workspace
        rw [← h1.2.1, ihs.2.1, tc.1]
      · show (if V2.gatedTick2 (s.lastStepTime + 400) s then 1 else 0)
          + V2.gatedCount2 (V2.sched2 (s.lastStepTime + 400) n) s1 = n + 1
        rw [if_pos hg, ← h1.2.1, ihs.2.2.1]
        omega
      · intro _
        show (V2.runTicks2 (V2.sched2 (s.lastStepTime + 400) n) s1).scriptRunning = false
        rw [← h1.2.1]
        exact ihs.2.2.2.1 (by omega)

/-- C3: starting a script of length N at startIndex, the engine performs at
most N − startIndex gated ticks (and N − startIndex ≤ N); whenever running
has become false the gated-tick count is exactly N − startIndex — never
fewer, never more; and a 400-spaced tick schedule followed by one more tick
call actually reaches running = false with exactly that count.  main.cpp
starts at k+1 after the first flag block at k; part_000 always starts, at
index 0 or 1.  (The part_000 schedule needs the SDL tick counter not to
wrap during the run, hence the 32-bit budget hypothesis on the existence
clause.) -/
theorem C3_termination :
    (∀ (s0 : V1.State) (now0 : Int) (k : Nat),
        V1.findFlag s0.workspace = some k →
        (∀ ts : List Int,
            V1.gatedCount ts (V1.StartScript now0 s0) ≤ s0.workspace.length - (k + 1) ∧
            s0.workspace.length - (k + 1) ≤ s0.workspace.length ∧
            ((V1.runTicks ts (V1.StartScript now0 s0)).running = false →
              V1.gatedCount ts (V1.StartScript now0 s0)
                = s0.workspace.length - (k + 1))) ∧
        (∃ ts : List Int, (V1.runTicks ts (V1.StartScript now0 s0)).running = false ∧
            V1.gatedCount ts (V1.StartScript now0 s0) = s0.workspace.length - (k + 1))) ∧
    (∀ (s0 : V2.State) (now0 : Nat),
        (∀ ts : List Nat,
            V2.gatedCount2 ts (V2.StartScript now0 s0)
              ≤ s0.workspace.length - (V2.StartScript now0 s0).scriptStep.toNat ∧
            ((V2.runTicks2 ts (V2.StartScript now0 s0)).scriptRunning = false →
              V2.gatedCount2 ts (V2.StartScript now0 s0)
                = s0.workspace.length - (V2.StartScript now0 s0).scriptStep.toNat)) ∧
        (now0 + 400 * s0.workspace.length < 4294967296 →
          ∃ ts : List Nat,
            (V2.runTicks2 ts (V2.StartScript now0 s0)).scriptRunning = false ∧
            V2.gatedCount2 ts (V2.StartScript now0 s0)
              = s0.workspace.length - (V2.StartScript now0 s0).scriptStep.toNat)) := by
  constructor
  · intro s0 now0 k hk
    have hsf := v1_start_fields now0 s0 k hk
    have hkN : k < s0.workspace.length := findFlag_lt s0.workspace k hk
    set s := V1.StartScript now0 s0 with hs
    constructor
    · intro ts
      have rs := v1_run_spec ts s
      have hb := rs.2.2.2 (by rw [hsf.2.1, hsf.2.2.2]; push_cast; omega)
      have h1 := rs.2.1
      rw [hsf.2.1] at h1
      rw [hsf.2.2.2] at hb
      refine ⟨by omega, by omega, ?_⟩
      intro hf
      rcases rs.2.2.1 hf with hr | hlen
      · rw [hsf.1] at hr
        simp at hr
      · rw [hsf.2.2.2] at hlen
        omega
    · have hsr := v1_sched_run (s0.workspace.length - (k + 1)) s hsf.1
        (by rw [hsf.2.1, hsf.2.2.2]; push_cast; omega)
      refine ⟨V1.sched s.lastStepTime (s0.workspace.length - (k + 1)) ++ [0], ?_, ?_⟩
      · rw [v1_runTicks_append]
        show (V1.UpdateScript 0
            (V1.runTicks (V1.sched s.lastStepTime (s0.workspace.length - (k + 1))) s)).running
          = false
        apply (v1_tick_restores 0 _).1
        rw [hsr.2.2.1, hsr.2.1]
      · rw [v1_count_append, hsr.2.2.2]
        have hnot : ¬ V1.gatedTick 0
            (V1.runTicks (V1.sched s.lastStepTime (s0.workspace.length - (k + 1))) s) := by
          intro hgg
          have hlt := hgg.2.1
          rw [hsr.2.1, hsr.2.2.1] at hlt
          omega
        show s0.workspace.length - (k + 1)
            + ((if V1.gatedTick 0
                  (V1.runTicks (V1.sched s.lastStepTime (s0.workspace.length - (k + 1))) s)
                then 1 else 0) + 0)
          = s0.workspace.length - (k + 1)
        rw [if_neg hnot]
        omega
  · intro s0 now0
    have hsf := v2_start_fields now0 s0
    set s := V2.StartScript now0 s0 with hs
    have hstep01 := hsf.2.2.2.1
    have hcast : ((s.scriptStep.toNat : Nat) : Int) = s.scriptStep := by
      rcases hstep01 with h | h <;> rw [h] <;> decide
    have hi0N : s.scriptStep.toNat ≤ s0.workspace.length := by
      rcases hstep01 with h | h
      · rw [h]
        simp
      · have hne := hsf.2.2.2.2 h
        have hpos : 0 < s0.workspace.length := List.length_pos.mpr hne
        rw [h]
        simpa using hpos
    constructor
    · intro ts
      have rs := v2_run_spec ts s
      have hb := rs.2.2.2 (by rw [hsf.2.2.1]; omega)
      have h1 := rs.2.1
      rw [hsf.2.2.1] at hb
      refine ⟨by omega, ?_⟩
      intro hf
      rcases rs.2.2.1 hf with hr | hlen
      · rw [hsf.1] at hr
        simp at hr
      · rw [hsf.2.2.1] at hlen
        omega
    · intro hbud
      set n := s0.workspace.length - s.scriptStep.toNat with hn
      have hsr := v2_sched_run n s hsf.1
        (by rw [hsf.2.2.1]; omega)
        (by rw [hsf.2.1]; omega)
      refine ⟨V2.sched2 s.lastStepTime n ++ [s.lastStepTime], ?_, ?_⟩
      · rw [v2_runTicks_append]
        show (V2.UpdateScript s.lastStepTime
            (V2.runTicks2 (V2.sched2 s.lastStepTime n) s)).scriptRunning = false
        apply (v2_tick_restores _ _).1
        rw [hsr.2.1, hsr.1]
      · rw [v2_count_append, hsr.2.2.1]
        have hnot : ¬ V2.gatedTick2 s.lastStepTime
            (V2.runTicks2 (V2.sched2 s.lastStepTime n) s) := by
          intro hgg
          have hlt := hgg.2.1
          rw [hsr.1, hsr.2.1] at hlt
          omega
        show n + ((if V2.gatedTick2 s.lastStepTime
              (V2.runTicks2 (V2.sched2 s.lastStepTime n) s) then 1 else 0) + 0) = n
        rw [if_neg hnot]
        omega

/-- C3 witness: running `[flag, Move X 10]` (length 2, start index 1) with
two well-spaced ticks stops with exactly one gated tick. -/
theorem C3_termination_witness :
    V1.findFlag c3stateV1.workspace = some 0 ∧
    V1.gatedCount [400, 800] (V1.StartScript 0 c3stateV1)
      ≤ c3stateV1.workspace.length - (0 + 1) ∧
    ((V1.runTicks [400, 800] (V1.StartScript 0 c3stateV1)).running = false →
      V1.gatedCount [400, 800] (V1.StartScript 0 c3stateV1)
        = c3stateV1.workspace.length - (0 + 1)) ∧
    V2.gatedCount2 [] (V2.StartScript 0 c3stateV2)
      ≤ c3stateV2.workspace.length - (V2.StartScript 0 c3stateV2).scriptStep.toNat := by
  refine ⟨by decide, ?_, ?_, ?_⟩
  · exact ((C3_termination.1 c3stateV1 0 0 (by decide)).1 [400, 800]).1
  · exact ((C3_termination.1 c3stateV1 0 0 (by decide)).1 [400, 800]).2.2
  · exact ((C3_termination.2 c3stateV2 0).1 []).1

/-- The accumulated decimal value of an all-digit list is bounded. -/
theorem digitsVal_lt (ds : List Char) (hd : ∀ c ∈ ds, c.isDigit = true) :
    ∀ acc : Nat, digitsVal ds acc < (acc + 1) * 10 ^ ds.length := by
  induction ds with
  | nil =>
    intro acc
    simp [digitsVal]
  | cons c rest ih =>
    intro acc
    have hc := isDigit_toNat (hd c (by simp))
    have hrest : ∀ x ∈ rest, x.isDigit = true := fun x hx => hd x (by simp [hx])
    have h1 := ih hrest (acc * 10 + (c.toNat - 48))
    show digitsVal rest (acc * 10 + (c.toNat - 48)) < (acc + 1) * 10 ^ (rest.length + 1)
    have hstep : (acc * 10 + (c.toNat - 48) + 1) * 10 ^ rest.length
        ≤ (acc + 1) * 10 ^ (rest.length + 1) := by
      have hmul : (acc * 10 + (c.toNat - 48) + 1) * 10 ^ rest.length
          ≤ ((acc + 1) * 10) * 10 ^ rest.length :=
        Nat.mul_le_mul (by omega) (le_refl _)
      calc (acc * 10 + (c.toNat - 48) + 1) * 10 ^ rest.length
          ≤ ((acc + 1) * 10) * 10 ^ rest.length := hmul
        _ = (acc + 1) * 10 ^ (rest.length + 1) := by
            rw [pow_succ]
            ring
    omega

/-- `takeWhile` of a list all of whose elements satisfy the test. -/
theorem takeWhile_all {p : Char → Bool} : ∀ (l : List Char), (∀ c ∈ l, p c = true) →
    l.takeWhile p = l := by
  intro l
  induction l with
  | nil => intro h; rfl
  | cons c rest ih =>
    intro h
    have hc : p c = true := h c (by simp)
    simp [List.takeWhile_cons, hc, ih (fun x hx => h x (by simp [hx]))]

/-- `std::stoi` on a non-empty all-digit string inside the `int` range. -/
theorem stoi_nonneg_digits (c : Char) (rest : List Char)
    (hall : ∀ x ∈ c :: rest, x.isDigit = true)
    (hbound : digitsVal (c :: rest) 0 ≤ 2147483647) :
    stoi (String.mk (c :: rest)) = some ((digitsVal (c :: rest) 0 : Nat) : Int) := by
  have hc : c.isDigit = true := hall c (by simp)
  have hcn := isDigit_toNat hc
  have hcne1 : c ≠ '-' := by
    intro he
    subst he
    revert hcn
    decide
  have hcne2 : c ≠ '+' := by
    intro he
    subst he
    revert hcn
    decide
  have hcw : ¬ (c = ' ' ∨ c = '\t' ∨ c = '\n' ∨ c = '\r') := by
    rintro (he | he | he | he) <;> (subst he; revert hcn; decide)
  unfold stoi
  rw [show (String.mk (c :: rest)).data = c :: rest from rfl]
  have hdw : ¬ (decide (c = ' ' ∨ c = '\t' ∨ c = '\n' ∨ c = '\r') = true) := by
    simp only [decide_eq_true_eq]
    exact hcw
  rw [List.dropWhile_cons, if_neg hdw]
  dsimp only
  rw [List.head?_cons]
  have hsign : ¬ ((some c = some '-') ∨ (some c = some '+')) := by
    simp [hcne1, hcne2]
  rw [if_neg hsign]
  rw [takeWhile_all _ hall]
  have hnil : ¬ (c :: rest = ([] : List Char)) := by simp
  rw [if_neg hnil]
  have hneg : ¬ (decide ((some c : Option Char) = some '-') = true) := by
    simp [hcne1]
  rw [if_neg hneg]
  have hrange : ¬ ((((digitsVal (c :: rest) 0 : Nat) : Int) < -2147483648)
      ∨ (2147483647 < ((digitsVal (c :: rest) 0 : Nat) : Int))) := by
    push_cast
    omega
  rw [if_neg hrange]

/-- `std::stoi` on a minus sign followed by a non-empty all-digit string
inside the `int` range. -/
theorem stoi_neg_digits (ds : List Char) (hall : ∀ x ∈ ds, x.isDigit = true) (hne : ds ≠ [])
    (hbound : digitsVal ds 0 ≤ 2147483648) :
    stoi (String.mk ('-' :: ds)) = some (-((digitsVal ds 0 : Nat) : Int)) := by
  unfold stoi
  rw [show (String.mk ('-' :: ds)).data = '-' :: ds from rfl]
  have hdw : ¬ (decide ('-' = ' ' ∨ '-' = '\t' ∨ '-' = '\n' ∨ '-' = '\r') = true) := by
    decide
  rw [List.dropWhile_cons, if_neg hdw]
  dsimp only
  rw [List.head?_cons]
  have hsign : ((some '-' : Option Char) = some '-') ∨ ((some '-' : Option Char) = some '+') :=
    Or.inl rfl
  rw [if_pos hsign]
  rw [show ('-' :: ds).tail = ds from rfl]
  rw [takeWhile_all _ hall]
  rw [if_neg hne]
  have hneg : (decide ((some '-' : Option Char) = some '-') = true) := by decide
  rw [if_pos hneg]
  have hrange : ¬ ((-(((digitsVal ds 0 : Nat) : Int)) < -2147483648)
      ∨ (2147483647 < -(((digitsVal ds 0 : Nat) : Int)))) := by
    push_cast
    omega
  rw [if_neg hrange]

/-- C10 (amended): in main.cpp, text input appends nothing once the buffer
holds 5 characters, and any buffer in the sanitized grammar (optional
leading minus, then digits) of length at most 5 parses through `std::stoi`
to a value in −9999..99999 — so the catch branch is unreachable for such
buffers.  The buffer is however reinitialized from the block's current
value on a badge click, and the wheel path can grow that value past 5
digits, so the buffer can exceed 5 characters and a commit can exceed
99999 (see the counterexample). -/
theorem C10_buffer :
    (∀ (s : V1.State) (ch : Char) (now : Int),
        5 ≤ s.editBuffer.length →
        (V1.handleEvent now (V1.Event.textInput ch) s).editBuffer = s.editBuffer) ∧
    (∀ buf : String, sanitizedBuf buf → buf.length ≤ 5 → buf ≠ "" → buf ≠ "-" →
        ∃ v, stoi buf = some v ∧ -9999 ≤ v ∧ v ≤ 99999) := by
  constructor
  · intro s ch now hlen
    show (V1.onTextInput ch s).editBuffer = s.editBuffer
    unfold V1.onTextInput
    by_cases he : 0 ≤ s.editingIdx
    · rw [if_pos he, if_neg (fun hcon => by omega)]
    · rw [if_neg he]
  · intro buf hsan hlen h1 h2
    rcases hd : buf.data with _ | ⟨c, cs⟩
    · exact absurd (String.ext (by rw [hd])) h1
    · have hlendata : buf.length = buf.data.length := rfl
      rw [hd] at hlendata
      by_cases hc : c = '-'
      · subst hc
        have hall : ∀ x ∈ cs, x.isDigit = true := by
          have h := hsan
          unfold sanitizedBuf at h
          rw [hd] at h
          exact fun x hx => h x hx
        have hcsne : cs ≠ [] := by
          intro he
          apply h2
          exact String.ext (by rw [hd, he])
        have hlen4 : cs.length ≤ 4 := by
          simp only [List.length_cons] at hlendata
          omega
        have hb : digitsVal cs 0 < 10 ^ cs.length := by
          simpa using digitsVal_lt cs hall 0
        have hb2 : digitsVal cs 0 ≤ 9999 := by
          have hpow : (10 : Nat) ^ cs.length ≤ 10 ^ 4 :=
            Nat.pow_le_pow_right (by omega) hlen4
          have h4 : (10 : Nat) ^ 4 = 10000 := by norm_num
          omega
        have hstoi := stoi_neg_digits cs hall hcsne (by omega)
        have hbeq : buf = String.mk ('-' :: cs) := String.ext (by rw [hd])
        rw [hbeq, hstoi]
        refine ⟨-((digitsVal cs 0 : Nat) : Int), rfl, by push_cast; omega, by push_cast; omega⟩
      · have hall : ∀ x ∈ c :: cs, x.isDigit = true := by
          have h := hsan
          unfold sanitizedBuf at h
          rw [hd] at h
          split at h
          · next heq =>
            injection heq with hx hy
            exact absurd hx hc
          · exact h
        have hlen5 : (c :: cs).length ≤ 5 := by
          simp only [List.length_cons] at hlendata ⊢
          omega
        have hb : digitsVal (c :: cs) 0 < 10 ^ (c :: cs).length := by
          simpa using digitsVal_lt (c :: cs) hall 0
        have hb2 : digitsVal (c :: cs) 0 ≤ 99999 := by
          have hpow : (10 : Nat) ^ (c :: cs).length ≤ 10 ^ 5 :=
            Nat.pow_le_pow_right (by omega) hlen5
          have h5 : (10 : Nat) ^ 5 = 100000 := by norm_num
          omega
        have hstoi := stoi_nonneg_digits c cs hall (by omega)
        have hbeq : buf = String.mk (c :: cs) := String.ext (by rw [hd])
        rw [hbeq, hstoi]
        refine ⟨((digitsVal (c :: cs) 0 : Nat) : Int), rfl, by push_cast; omega,
          by push_cast; omega⟩

/-- C10 witness: a 6-character buffer absorbs no further typed digit, and
the sanitized 5-character buffer "99999" parses to 99999 within bounds. -/
theorem C10_buffer_witness :
    5 ≤ (V1.runActs c10trace V1.initState).editBuffer.length ∧
    (V1.handleEvent 0 (V1.Event.textInput '7') (V1.runActs c10trace V1.initState)).editBuffer
      = (V1.runActs c10trace V1.initState).editBuffer ∧
    (∃ v, stoi "99999" = some v ∧ -9999 ≤ v ∧ v ≤ 99999) := by
  refine ⟨by decide, ?_, ?_⟩
  · exact C10_buffer.1 (V1.runActs c10trace V1.initState) '7' 0 (by decide)
  · exact C10_buffer.2 "99999" (by decide) (by decide) (by decide) (by decide)

/-- C10 counterexample: commit 99999, wheel the block up to 100004, then
click its badge: the buffer is the six-character string "100004", and the
following Enter commits 100004 > 99999 — the buffer does exceed 5
characters and the committed value does leave −9999..99999. -/
theorem C10_counterexample :
    (V1.runActs c10trace V1.initState).editBuffer = "100004" ∧
    ¬ ((V1.runActs c10trace V1.initState).editBuffer.length ≤ 5) ∧
    ((V1.runActs c10full V1.initState).workspace.get? 0).map V1.Block.steps = some 100004 ∧
    ¬ (100004 : Int) ≤ 99999 := by
  refine ⟨by decide, by decide, by decide, by decide⟩
